import Mathlib

/-!
# tensor_filter_common: configuration and lifecycle state machine

A shallow embedding of `gst/nnstreamer/tensor_filter/tensor_filter_common.c`.

Modelling conventions.

* A C function that can dereference a null pointer or call a null callback
  returns `Option`; `none` stands for that undefined behaviour.
* Backend callbacks are deterministic functions of their arguments. The
  properties structure is handed to them through a `const` pointer, so a
  callback cannot change it. A callback that receives `void **private_data`
  may replace the handle and returns the new one.
* Every callback invocation is recorded, newest first, in the ghost field
  `trace` of the instance, together with the properties structure that was
  handed over and the returned status.
* Library calls whose code is outside this file (registry lookup and registration,
  file test, tensor-info string functions) and the indeterminate contents of
  uninitialised locals are fields of `Env`; GLib's regular expressions are
  modelled by a matcher for the pattern fragment that `create_regex` produces.
-/

namespace TensorFilter

/-! ## Basic data -/

/-- Hardware accelerators: the rows of the enum table of `accl_hw_get_type`. -/
inductive accl_hw
  | ACCL_NONE
  | ACCL_DEFAULT
  | ACCL_AUTO
  | ACCL_CPU
  | ACCL_CPU_NEON
  | ACCL_GPU
  | ACCL_NPU
  | ACCL_NPU_MOVIDIUS
  | ACCL_NPU_EDGE_TPU
  | ACCL_NPU_VIVANTE
  | ACCL_NPU_SRCN
  | ACCL_NPU_SR
  deriving DecidableEq, Repr

/-- Data layout of one tensor. -/
inductive tensor_layout
  | _NNS_LAYOUT_ANY
  | _NNS_LAYOUT_NHWC
  | _NNS_LAYOUT_NCHW
  | _NNS_LAYOUT_NONE
  deriving DecidableEq, Repr

/-- Modelled from the spec: the constant `NNS_TENSOR_SIZE_LIMIT` is declared in a
header that is not part of the sources; it is the maximum supported tensor count. -/
def NNS_TENSOR_SIZE_LIMIT : Nat := 16

/-- Modelled from the spec: `GstTensorInfo` (declared in a missing header) holds, per
tensor, a name, an element type and a dimension vector. -/
structure GstTensorInfo where
  name : Option String
  type : Nat
  dimension : List Nat
  deriving DecidableEq, Repr

/-- Modelled from the spec: `GstTensorsInfo` (declared in a missing header) is
`num_tensors` together with the per-tensor records. -/
structure GstTensorsInfo where
  num_tensors : Nat
  info : List GstTensorInfo
  deriving DecidableEq, Repr

/-- Modelled from the spec: `gst_tensors_info_init` (missing source) yields empty metadata. -/
def gst_tensors_info_init : GstTensorsInfo :=
  { num_tensors := 0, info := [] }

/-- Opaque backend handle (`void *`); `none` is the null pointer. -/
abbrev PrivateData := Option Nat

/-- The struct `GstTensorFilterProperties`, with the fields the source reads and writes.
The declaration itself is in a missing header; `accl_str`, `hw_list` and `num_hw` are
kept as three separate fields. -/
structure GstTensorFilterProperties where
  fwname : Option String
  fw_opened : Bool
  model_files : Option (List String)
  num_models : Nat
  input_configured : Bool
  input_meta : GstTensorsInfo
  input_layout : List tensor_layout
  output_configured : Bool
  output_meta : GstTensorsInfo
  output_layout : List tensor_layout
  custom_properties : Option String
  hw_list : Option (List accl_hw)
  num_hw : Nat
  accl_str : Option String
  deriving DecidableEq, Repr

/-- The struct `GstTensorFilterFrameworkInfo` filled by `getFrameworkInfo`. -/
structure GstTensorFilterFrameworkInfo where
  name : Option String
  allow_in_place : Bool
  allocate_in_invoke : Bool
  run_without_model : Bool
  verify_model_path : Bool
  hw_list : Option (List accl_hw)
  num_hw : Nat
  deriving DecidableEq, Repr

/-- Event identifiers handed to `eventHandler`. -/
inductive event_ops
  | DESTROY_NOTIFY
  | RELOAD_MODEL
  | CUSTOM_PROP
  | SET_INPUT_PROP
  | SET_OUTPUT_PROP
  | SET_ACCELERATOR
  deriving DecidableEq, Repr

/-- The union `GstTensorFilterFrameworkEventData`, one constructor per member group
that the source fills in. -/
inductive GstTensorFilterFrameworkEventData
  | model (model_files : Option (List String)) (num_models : Nat)
  | layout (info : Option GstTensorsInfo) (layout : List tensor_layout)
  | custom (custom_properties : Option String)
  | accl (num_hw : Nat) (hw_list : Option (List accl_hw))
  deriving DecidableEq, Repr

/-- The backend descriptor `GstTensorFilterFramework`. Callbacks that the modelled code
calls are optional functions (`none` is a null function pointer); callbacks that are only
tested for presence are booleans. `version = 0` is the legacy ABI, `version = 1` the
modern one. -/
structure GstTensorFilterFramework where
  version : Nat
  open_ : Option (GstTensorFilterProperties → PrivateData → Int × PrivateData)
  close : Option (GstTensorFilterProperties → PrivateData → PrivateData)
  name : Option String
  allocate_in_invoke : Bool
  run_without_model : Bool
  verify_model_path : Bool
  invoke_NN : Bool
  getInputDimension : Bool
  getOutputDimension : Bool
  setInputDimension : Bool
  reloadModel : Option (GstTensorFilterProperties → PrivateData → Int × PrivateData)
  allocateInInvoke : Option (PrivateData → Int)
  invoke : Bool
  getFrameworkInfo :
    Option (GstTensorFilterProperties → PrivateData → Int × Option GstTensorFilterFrameworkInfo)
  getModelInfo : Bool
  eventHandler :
    Option (GstTensorFilterProperties → PrivateData → event_ops →
      Option GstTensorFilterFrameworkEventData → Int)

/-- One recorded callback invocation: the properties structure handed over, further
arguments, and the returned status. -/
inductive Call
  | open_ (prop : GstTensorFilterProperties) (status : Int)
  | close (prop : GstTensorFilterProperties)
  | getFrameworkInfo (prop : GstTensorFilterProperties) (private_data : PrivateData)
      (status : Int)
  | reloadModel (prop : GstTensorFilterProperties) (status : Int)
  | eventHandler (prop : GstTensorFilterProperties) (ops : event_ops)
      (data : Option GstTensorFilterFrameworkEventData) (status : Int)
  deriving DecidableEq, Repr

/-- The struct `GstTensorFilterPrivate` of one filter instance, extended with the ghost
field `trace`. The `in_config` / `out_config` members are only initialised and freed by
the modelled functions and are left out. -/
structure GstTensorFilterPrivate where
  prop : GstTensorFilterProperties
  info : GstTensorFilterFrameworkInfo
  fw : Option GstTensorFilterFramework
  privateData : PrivateData
  silent : Bool
  configured : Bool
  is_updatable : Bool
  trace : List Call

/-- A property value. `g_value_get_string` of a value that holds no string is null. -/
inductive GValue
  | string (s : Option String)
  | boolean (b : Bool)
  deriving DecidableEq, Repr

/-- GLib `g_value_get_string`; a null or non-string value gives null. -/
def g_value_get_string : Option GValue → Option String
  | some (GValue.string s) => s
  | _ => none

/-- GLib `g_value_dup_string`: a copy of the held string. -/
def g_value_dup_string (value : Option GValue) : Option String :=
  g_value_get_string value

/-- GLib `g_value_get_boolean`; a null or non-boolean value gives FALSE. -/
def g_value_get_boolean : Option GValue → Bool
  | some (GValue.boolean b) => b
  | _ => false

/-- The environment: library functions whose code is not in this file. -/
structure Env where
  /-- Registry lookup `get_subplugin (NNS_SUBPLUGIN_FILTER, name)`. -/
  get_subplugin : Option String → Option GstTensorFilterFramework
  /-- GLib `g_file_test (path, G_FILE_TEST_IS_REGULAR)`. -/
  g_file_test_is_regular : String → Bool
  /-- Function `gst_tensors_info_parse_dimensions_string`: updated metadata and number parsed. -/
  gst_tensors_info_parse_dimensions_string :
    GstTensorsInfo → Option String → GstTensorsInfo × Nat
  /-- Function `gst_tensors_info_parse_types_string`. -/
  gst_tensors_info_parse_types_string :
    GstTensorsInfo → Option String → GstTensorsInfo × Nat
  /-- Function `gst_tensors_info_parse_names_string`. -/
  gst_tensors_info_parse_names_string :
    GstTensorsInfo → Option String → GstTensorsInfo × Nat
  /-- Indeterminate contents of the uninitialised local array `data.layout`. -/
  uninitialised_layout : List tensor_layout
  /-- Function `gst_tensors_info_get_dimensions_string`. -/
  gst_tensors_info_get_dimensions_string : GstTensorsInfo → Option String
  /-- Function `gst_tensors_info_get_types_string`. -/
  gst_tensors_info_get_types_string : GstTensorsInfo → Option String
  /-- Function `gst_tensors_info_get_names_string`. -/
  gst_tensors_info_get_names_string : GstTensorsInfo → Option String
  /-- File names reported by `nnsconf_get_subplugin_info (NNSCONF_PATH_FILTERS, ...)`. -/
  nnsconf_get_subplugin_info : List String
  /-- Result of `nnsconf_get_subplugin_name_prefix (NNSCONF_PATH_FILTERS)`. -/
  prefix_str : String
  /-- The constant `NNSTREAMER_SO_FILE_EXTENSION`. -/
  NNSTREAMER_SO_FILE_EXTENSION : String
  /-- Indeterminate contents of an uninitialised local `GstTensorFilterProperties`. -/
  uninitialised_prop : GstTensorFilterProperties
  /-- Indeterminate contents of an uninitialised local `GstTensorFilterFrameworkInfo`. -/
  uninitialised_info : GstTensorFilterFrameworkInfo
  /-- Registry insertion `register_subplugin (NNS_SUBPLUGIN_FILTER, name, data)`: the
  returned boolean and the registry contents afterwards. -/
  register_subplugin :
    List (String × GstTensorFilterFramework) → Option String → GstTensorFilterFramework →
      Bool × List (String × GstTensorFilterFramework)

/-! ## Property identifiers -/

def PROP_0 : Nat := 0
def PROP_SILENT : Nat := 1
def PROP_FRAMEWORK : Nat := 2
def PROP_MODEL : Nat := 3
def PROP_INPUT : Nat := 4
def PROP_INPUTTYPE : Nat := 5
def PROP_INPUTNAME : Nat := 6
def PROP_INPUTLAYOUT : Nat := 7
def PROP_OUTPUT : Nat := 8
def PROP_OUTPUTTYPE : Nat := 9
def PROP_OUTPUTNAME : Nat := 10
def PROP_OUTPUTLAYOUT : Nat := 11
def PROP_CUSTOM : Nat := 12
def PROP_SUBPLUGINS : Nat := 13
def PROP_ACCELERATOR : Nat := 14
def PROP_IS_UPDATABLE : Nat := 15

/-- The errno value `ENOENT`. -/
def ENOENT : Int := 2

/-! ## ABI tests -/

/-- Modelled from the spec: the macro `GST_TF_FW_V0` (missing header) holds for a non-null
descriptor of the legacy ABI. -/
def GST_TF_FW_V0 (fw : Option GstTensorFilterFramework) : Bool :=
  match fw with
  | some f => f.version == 0
  | none => false

/-- Modelled from the spec: the macro `GST_TF_FW_V1` (missing header) holds for a non-null
descriptor of the modern ABI. -/
def GST_TF_FW_V1 (fw : Option GstTensorFilterFramework) : Bool :=
  match fw with
  | some f => f.version == 1
  | none => false


/-! ## String helpers (GLib) -/

/-- Tokens of a character list, cut at every character of `delims`. -/
def splitChars (delims : List Char) : List Char → List (List Char)
  | [] => [[]]
  | c :: cs =>
    if c ∈ delims then [] :: splitChars delims cs
    else
      match splitChars delims cs with
      | [] => [[c]]
      | t :: ts => (c :: t) :: ts

/-- GLib `g_strsplit_set (string, delimiters, -1)`: the empty string gives the empty
vector, otherwise the string is cut at every delimiter character. -/
def g_strsplit_set (string delimiters : String) : List String :=
  if string.data = [] then []
  else (splitChars delimiters.data string.data).map String.mk

/-- GLib `g_strjoinv`. -/
def g_strjoinv (separator : String) (str_array : List String) : String :=
  String.intercalate separator str_array

/-- GLib `g_strcmp0 (a, b) == 0`: null-safe string equality. -/
def g_strcmp0_eq (a b : Option String) : Bool :=
  a == b

/-- GLib `g_ascii_tolower` on one character. -/
def g_ascii_tolower (c : Char) : Char :=
  if 'A' ≤ c ∧ c ≤ 'Z' then Char.ofNat (c.toNat + 32) else c

/-- GLib `g_ascii_strcasecmp (a, b) == 0`. -/
def g_ascii_strcasecmp_eq (a b : String) : Bool :=
  a.data.map g_ascii_tolower == b.data.map g_ascii_tolower

/-- GLib `g_ascii_isspace`. -/
def g_ascii_isspace (c : Char) : Bool :=
  c == ' ' || c == '\t' || c == '\n' || c == '\r' || c == Char.ofNat 12

/-- GLib `g_strstrip`: leading and trailing white space removed. -/
def g_strstrip (s : String) : String :=
  String.mk (((s.data.dropWhile g_ascii_isspace).reverse.dropWhile g_ascii_isspace).reverse)

/-! ## Layout strings -/

/-- Source `gst_tensors_layout_init`: every entry is `_NNS_LAYOUT_ANY`. -/
def gst_tensors_layout_init : List tensor_layout :=
  List.replicate NNS_TENSOR_SIZE_LIMIT tensor_layout._NNS_LAYOUT_ANY

/-- Source `gst_tensor_parse_layout_string`. The stripped copy is only used for the
length test; the comparisons read the original `layoutstr`. -/
def gst_tensor_parse_layout_string (layoutstr : Option String) : tensor_layout :=
  match layoutstr with
  | none => tensor_layout._NNS_LAYOUT_ANY
  | some str =>
    let layout_string := g_strstrip str
    if layout_string.length = 0 then tensor_layout._NNS_LAYOUT_ANY
    else if g_ascii_strcasecmp_eq str "NCHW" then tensor_layout._NNS_LAYOUT_NCHW
    else if g_ascii_strcasecmp_eq str "NHWC" then tensor_layout._NNS_LAYOUT_NHWC
    else if g_ascii_strcasecmp_eq str "ANY" then tensor_layout._NNS_LAYOUT_ANY
    else tensor_layout._NNS_LAYOUT_NONE

/-- Writes `vals` over the leading entries of `layout`, keeping the remaining ones. -/
def overwriteLayouts (layout vals : List tensor_layout) : List tensor_layout :=
  vals ++ layout.drop vals.length

/-- Source `gst_tensors_parse_layouts_string`: the updated layout array and the number
of parsed layouts (capped at `NNS_TENSOR_SIZE_LIMIT`). -/
def gst_tensors_parse_layouts_string (layout : List tensor_layout)
    (layout_string : Option String) : List tensor_layout × Nat :=
  match layout_string with
  | none => (layout, 0)
  | some s =>
    let str_layouts := g_strsplit_set s ",."
    let num_layouts := min str_layouts.length NNS_TENSOR_SIZE_LIMIT
    let vals := (str_layouts.take num_layouts).map (fun t => gst_tensor_parse_layout_string (some t))
    (overwriteLayouts layout vals, num_layouts)

/-- Source `gst_tensor_get_layout_string`. -/
def gst_tensor_get_layout_string : tensor_layout → String
  | tensor_layout._NNS_LAYOUT_NCHW => "NCHW"
  | tensor_layout._NNS_LAYOUT_NHWC => "NHWC"
  | tensor_layout._NNS_LAYOUT_NONE => "NONE"
  | tensor_layout._NNS_LAYOUT_ANY => "ANY"

/-! ## Regular expressions (GLib GRegex over PCRE)

The two patterns built by `create_regex` are compiled and matched by GLib. The model
below covers the pattern syntax those patterns use: literal characters, `\\` escapes of
non-alphanumeric characters, one-character-list classes `[...]`, capturing groups,
alternation, the greedy quantifiers `?` and `*`, the anchor `^` and the negative
lookbehind `(?<!...)` over literal characters. A pattern outside this fragment is not
modelled and is treated as one that does not compile. Matching follows PCRE: leftmost
match, alternatives in order, greedy quantifiers with backtracking, caseless comparison of
ASCII letters (`G_REGEX_CASELESS`), and no empty match (`G_REGEX_MATCH_NOTEMPTY`). -/

/-- Regular expressions of the modelled PCRE fragment. -/
inductive Regex
  | eps
  | char (c : Char)
  | cls (cs : List Char)
  | bol
  | notBehind (cs : List Char)
  | cat (r s : Regex)
  | alt (r s : Regex)
  | opt (r : Regex)
  | star (r : Regex)
  | group (r : Regex)
  deriving DecidableEq, Repr

/-- A position in the subject string: the characters before it (nearest first) and the
characters from it on. -/
structure Subject where
  before : List Char
  after : List Char
  deriving DecidableEq, Repr

/-- Caseless comparison of two characters. Only ASCII letters are folded; GLib also
folds the letters outside ASCII, which no pattern or subject considered here contains. -/
def caseless_eq (a b : Char) : Bool :=
  g_ascii_tolower a == g_ascii_tolower b

/-- The literal `cs` stands immediately before the current position. -/
def behind_matches (cs : List Char) (before : List Char) : Bool :=
  decide (cs.length ≤ before.length) &&
    (List.zipWith caseless_eq (before.take cs.length) cs.reverse).all id

/-- Greedy repetition: at most `n` further iterations of `step`, each tried before the
continuation `k`; an iteration that consumed nothing ends the loop. -/
def star_loop (step : (Subject → Option Subject) → Subject → Option Subject)
    (k : Subject → Option Subject) : Nat → Subject → Option Subject
  | 0, z => k z
  | n + 1, z =>
    match step (fun z' =>
        if z'.after.length < z.after.length then star_loop step k n z' else k z') z with
    | some e => some e
    | none => k z

/-- Backtracking matcher in continuation-passing style: `r.run k z` is the end of the
first way, in PCRE's priority order, to match `r` at `z` such that `k` accepts. -/
def Regex.run : Regex → (Subject → Option Subject) → Subject → Option Subject
  | Regex.eps, k, z => k z
  | Regex.char c, k, z =>
    match z.after with
    | x :: xs => if caseless_eq x c then k { before := x :: z.before, after := xs } else none
    | [] => none
  | Regex.cls cs, k, z =>
    match z.after with
    | x :: xs =>
      if cs.any (caseless_eq x) then k { before := x :: z.before, after := xs } else none
    | [] => none
  | Regex.bol, k, z => if z.before.isEmpty then k z else none
  | Regex.notBehind cs, k, z => if behind_matches cs z.before then none else k z
  | Regex.cat r s, k, z => r.run (fun z' => s.run k z') z
  | Regex.alt r s, k, z =>
    match r.run k z with
    | some e => some e
    | none => s.run k z
  | Regex.opt r, k, z =>
    match r.run k z with
    | some e => some e
    | none => k z
  | Regex.star r, k, z => star_loop (fun k' z' => r.run k' z') k z.after.length z
  | Regex.group r, k, z => r.run k z

/-- A non-empty match of `r` starting exactly at `z`. -/
def match_here (r : Regex) (z : Subject) : Option Subject :=
  r.run (fun e => if e.after.length < z.after.length then some e else none) z

/-- The leftmost non-empty match at or after the given position: its start and end. -/
def search (r : Regex) : List Char → List Char → Option (Subject × Subject)
  | before, [] =>
    (match_here r { before := before, after := [] }).map
      (fun e => ({ before := before, after := [] }, e))
  | before, x :: xs =>
    match match_here r { before := before, after := x :: xs } with
    | some e => some ({ before := before, after := x :: xs }, e)
    | none => search r (x :: before) xs

/-- The successive non-overlapping matches (`g_regex_match` followed by
`g_match_info_next`), each fetched as written in the subject; `n` bounds their number. -/
def match_words (r : Regex) : Nat → List Char → List Char → List String
  | 0, _, _ => []
  | n + 1, before, after =>
    match search r before after with
    | none => []
    | some (s, e) =>
      String.mk (s.after.take (s.after.length - e.after.length))
        :: match_words r n e.before e.after

/-- The kind of an open group while a pattern is read. -/
inductive FrameKind
  | top
  | group
  | lookbehind
  deriving DecidableEq, Repr

/-- An open group while a pattern is read: finished alternatives and the atoms of the
current alternative, both in order. -/
structure Frame where
  kind : FrameKind
  alts : List Regex
  cur : List Regex
  deriving DecidableEq, Repr

/-- Reader mode: plain, after a backslash, inside a class, after `(?`, after `(?<`. -/
inductive ParseMode
  | normal
  | escape
  | cls (acc : List Char)
  | ext1
  | ext2
  deriving DecidableEq, Repr

/-- Reader state: innermost open group, the enclosing ones, and the mode. -/
structure ParseState where
  top : Frame
  rest : List Frame
  mode : ParseMode
  deriving DecidableEq, Repr

/-- Concatenation of a list of atoms. -/
def seq_of : List Regex → Regex
  | [] => Regex.eps
  | [r] => r
  | r :: s :: rs => Regex.cat r (seq_of (s :: rs))

/-- Ordered alternation of a list of alternatives. -/
def alt_of : List Regex → Regex
  | [] => Regex.eps
  | [r] => r
  | r :: s :: rs => Regex.alt r (alt_of (s :: rs))

/-- The expression a group stands for when it is closed. -/
def Frame.regex (f : Frame) : Regex :=
  alt_of (f.alts ++ [seq_of f.cur])

/-- Appends an atom to the current alternative. -/
def push_atom (σ : ParseState) (a : Regex) : ParseState :=
  { σ with top := { σ.top with cur := σ.top.cur ++ [a] }, mode := ParseMode.normal }

/-- Applies a quantifier to the last atom; a quantifier on nothing or on a quantified
atom is outside the fragment. -/
def quantify (q : Regex → Regex) (σ : ParseState) : Option ParseState :=
  match σ.top.cur.getLast? with
  | none => none
  | some (Regex.opt _) => none
  | some (Regex.star _) => none
  | some a => some { σ with top := { σ.top with cur := σ.top.cur.dropLast ++ [q a] } }

/-- The characters of a sequence of literal atoms. -/
def literal_chars : List Regex → Option (List Char)
  | [] => some []
  | Regex.char c :: rs => (literal_chars rs).map (fun cs => c :: cs)
  | _ :: _ => none

/-- Closes the innermost group at `)`. -/
def close_group (σ : ParseState) : Option ParseState :=
  match σ.rest with
  | [] => none
  | parent :: rest =>
    match σ.top.kind with
    | FrameKind.top => none
    | FrameKind.group =>
      some { top := { parent with cur := parent.cur ++ [Regex.group σ.top.regex] },
             rest := rest, mode := ParseMode.normal }
    | FrameKind.lookbehind =>
      if σ.top.alts = [] then
        (literal_chars σ.top.cur).map (fun cs =>
          { top := { parent with cur := parent.cur ++ [Regex.notBehind cs] },
            rest := rest, mode := ParseMode.normal })
      else none

/-- Metacharacters outside the fragment. -/
def unsupported_chars : List Char := ['.', '$', '+', '{', '}', ']']

/-- Reads one pattern character. -/
def parse_step (σ : ParseState) (c : Char) : Option ParseState :=
  match σ.mode with
  | ParseMode.escape => if c.isAlphanum then none else some (push_atom σ (Regex.char c))
  | ParseMode.cls acc =>
    if c = ']' then
      if acc = [] then none else some (push_atom σ (Regex.cls acc.reverse))
    else if c ∈ ['\\', '^', '-', '['] then none
    else some { σ with mode := ParseMode.cls (c :: acc) }
  | ParseMode.ext1 => if c = '<' then some { σ with mode := ParseMode.ext2 } else none
  | ParseMode.ext2 =>
    if c = '!' then
      some { σ with top := { σ.top with kind := FrameKind.lookbehind }, mode := ParseMode.normal }
    else none
  | ParseMode.normal =>
    if c = '(' then
      some { top := { kind := FrameKind.group, alts := [], cur := [] },
             rest := σ.top :: σ.rest, mode := ParseMode.normal }
    else if c = ')' then close_group σ
    else if c = '|' then
      some { σ with top := { σ.top with alts := σ.top.alts ++ [seq_of σ.top.cur], cur := [] } }
    else if c = '?' then
      if σ.top.cur = [] then
        if σ.top.kind = FrameKind.group ∧ σ.top.alts = [] then
          some { σ with mode := ParseMode.ext1 }
        else none
      else quantify Regex.opt σ
    else if c = '*' then quantify Regex.star σ
    else if c = '[' then some { σ with mode := ParseMode.cls [] }
    else if c = '\\' then some { σ with mode := ParseMode.escape }
    else if c = '^' then some (push_atom σ Regex.bol)
    else if c ∈ unsupported_chars then none
    else some (push_atom σ (Regex.char c))

/-- The reader state before the first character. -/
def parse_init : ParseState :=
  { top := { kind := FrameKind.top, alts := [], cur := [] }, rest := [],
    mode := ParseMode.normal }

/-- The compiled expression once the pattern is read; open groups are an error. -/
def parse_finish (σ : ParseState) : Option Regex :=
  if σ.rest = [] ∧ σ.mode = ParseMode.normal then some σ.top.regex else none

/-- Reads a run of pattern characters. -/
def parse_chars (σ : ParseState) (cs : List Char) : Option ParseState :=
  cs.foldlM parse_step σ

/-- GLib `g_regex_new (pattern, G_REGEX_CASELESS, ...)`; a null pattern fails, and so
does a pattern with unbalanced parentheses. A pattern that uses syntax outside the modelled
fragment (a name with `+`, say) is reported as failing too, although PCRE may compile
it. -/
def g_regex_new (pattern : Option String) : Option Regex :=
  match pattern with
  | none => none
  | some p => (parse_chars parse_init p.data).bind parse_finish

/-- GLib `g_regex_match_simple (pattern, string, G_REGEX_CASELESS,
G_REGEX_MATCH_NOTEMPTY)`; FALSE when the pattern does not compile. -/
def g_regex_match_simple (pattern : Option String) (string : String) : Bool :=
  match g_regex_new pattern with
  | none => false
  | some r => (search r [] string.data).isSome

/-- The words fetched by the loop of `parse_accl_hw_all`: `g_regex_new`, `g_regex_match`
and then `g_match_info_fetch (m, 0)` / `g_match_info_next` until no match is left. When
the pattern does not compile, `g_regex_match` is handed a null expression, fails its
argument check and returns FALSE, so no word is fetched. -/
def g_regex_match_words (pattern : Option String) (string : String) : List String :=
  match g_regex_new pattern with
  | none => []
  | some r => match_words r (string.data.length + 1) [] string.data

/-! ## Accelerator names and the resolver -/

/-- Modelled from the spec: canonical accelerator names (the `ACCL_*_STR` macros are in a
missing header): lower-case names whose variants are separated by a dot, the character
that `create_regex` escapes. -/
def get_accl_hw_str : accl_hw → String
  | accl_hw.ACCL_NONE => "none"
  | accl_hw.ACCL_DEFAULT => "default"
  | accl_hw.ACCL_AUTO => "auto"
  | accl_hw.ACCL_CPU => "cpu"
  | accl_hw.ACCL_CPU_NEON => "cpu.neon"
  | accl_hw.ACCL_GPU => "gpu"
  | accl_hw.ACCL_NPU => "npu"
  | accl_hw.ACCL_NPU_MOVIDIUS => "npu.movidius"
  | accl_hw.ACCL_NPU_EDGE_TPU => "npu.edgetpu"
  | accl_hw.ACCL_NPU_VIVANTE => "npu.vivante"
  | accl_hw.ACCL_NPU_SRCN => "npu.srcn"
  | accl_hw.ACCL_NPU_SR => "npu.sr"

/-- The rows of the enum table registered by `accl_hw_get_type`, in table order. -/
def accl_hw_values : List accl_hw :=
  [accl_hw.ACCL_NONE, accl_hw.ACCL_DEFAULT, accl_hw.ACCL_AUTO, accl_hw.ACCL_CPU,
   accl_hw.ACCL_CPU_NEON, accl_hw.ACCL_GPU, accl_hw.ACCL_NPU, accl_hw.ACCL_NPU_MOVIDIUS,
   accl_hw.ACCL_NPU_EDGE_TPU, accl_hw.ACCL_NPU_VIVANTE, accl_hw.ACCL_NPU_SRCN,
   accl_hw.ACCL_NPU_SR]

/-- Source `get_accl_hw_type`: `g_enum_get_value_by_name` compares the key with the
value names exactly; an unknown key gives `ACCL_NONE`. -/
def get_accl_hw_type (key : String) : accl_hw :=
  match accl_hw_values.find? (fun a => get_accl_hw_str a == key) with
  | some a => a
  | none => accl_hw.ACCL_NONE

/-- The five building blocks of a pattern: start, prefix, suffix, delimiter, end. -/
structure RegexUtils where
  start : String
  pre : String
  suf : String
  delimiter : String
  stop : String

/-- Source `regex_accl_utils`. -/
def regex_accl_utils : RegexUtils :=
  { start := "(^(true)[:]?([(]?(", pre := "", suf := "", delimiter := "|", stop := ")*[)]?))" }

/-- Source `regex_accl_elem_utils`. -/
def regex_accl_elem_utils : RegexUtils :=
  { start := "(", pre := "(?<!!)", suf := "", delimiter := "|", stop := ")?" }

/-- Source `create_regex`. The loop starts at `strings[1]` and advances with
`*++strings`, so the second name is visited twice. The 4096-byte buffer bound is not
modelled. -/
def create_regex (enum_list : List String) (regex_utils : RegexUtils) : Option String :=
  match enum_list with
  | [] => none
  | first :: rest =>
    let visited : List String :=
      match rest with
      | [] => []
      | second :: _ => second :: rest
    let body := visited.foldl
      (fun acc it => acc ++ regex_utils.delimiter ++ regex_utils.pre ++ it ++ regex_utils.suf)
      (regex_utils.start ++ regex_utils.pre ++ first ++ regex_utils.suf)
    let regex := body ++ regex_utils.stop
    some (g_strjoinv "\\." (g_strsplit_set regex "."))

/-- Source `parse_accl_hw_all`. -/
def parse_accl_hw_all (accelerators : Option String)
    (supported_accelerators : List String) : List accl_hw :=
  match accelerators with
  | none => [accl_hw.ACCL_DEFAULT]
  | some a =>
    let regex_accl := create_regex supported_accelerators regex_accl_utils
    if g_regex_match_simple regex_accl a then
      let regex_accl_elem := create_regex supported_accelerators regex_accl_elem_utils
      let match_accl := (g_regex_match_words regex_accl_elem a).map get_accl_hw_type
      if match_accl.length = 0 then [accl_hw.ACCL_AUTO] else match_accl
    else [accl_hw.ACCL_NONE]

/-- Source `parse_accl_hw`: the first element of the resolved list. -/
def parse_accl_hw (accelerators : Option String)
    (supported_accelerators : List String) : accl_hw :=
  (parse_accl_hw_all accelerators supported_accelerators).headD accl_hw.ACCL_NONE

/-! ## Registry, model paths, initialisation -/

/-- Source `nnstreamer_filter_find`. -/
def nnstreamer_filter_find (env : Env) (name : Option String) :
    Option GstTensorFilterFramework :=
  env.get_subplugin name

/-- Source `gst_tensor_filter_parse_modelpaths_string`. -/
def gst_tensor_filter_parse_modelpaths_string (prop : GstTensorFilterProperties)
    (model_files : Option String) : GstTensorFilterProperties :=
  match model_files with
  | some m =>
    let files := g_strsplit_set m ","
    { prop with model_files := some files, num_models := files.length }
  | none => { prop with model_files := none, num_models := 0 }

/-- Source `gst_tensor_filter_properties_init`. The members `hw_list` and `num_hw` are
not assigned by the source and keep their previous contents. -/
def gst_tensor_filter_properties_init (prop : GstTensorFilterProperties) :
    GstTensorFilterProperties :=
  { prop with
    fwname := none
    fw_opened := false
    model_files := none
    num_models := 0
    input_configured := false
    input_meta := gst_tensors_info_init
    input_layout := gst_tensors_layout_init
    output_configured := false
    output_meta := gst_tensors_info_init
    output_layout := gst_tensors_layout_init
    custom_properties := none
    accl_str := none }

/-- Source `gst_tensor_filter_common_init_property`. The members `is_updatable` and the
rest of `info` are not assigned by the source and keep their previous contents. -/
def gst_tensor_filter_common_init_property (priv : GstTensorFilterPrivate) :
    GstTensorFilterPrivate :=
  { priv with
    prop := gst_tensor_filter_properties_init priv.prop
    info := { priv.info with name := none }
    fw := none
    privateData := none
    silent := true
    configured := false }

/-- The loop of `verify_model_path`: starting at index `i` with `remaining` iterations
to go, every `model_files[i]` is tested with `g_file_test` and a failing test sets `ret`
to FALSE. A read past the end of the vector is undefined. -/
def verify_model_path_loop (env : Env) (files : List String) (i : Nat) :
    (remaining : Nat) → (ret : Bool) → Option Bool
  | 0, ret => some ret
  | k + 1, ret =>
    match files.get? i with
    | none => none
    | some file =>
      verify_model_path_loop env files (i + 1) k
        (if !env.g_file_test_is_regular file then false else ret)

/-- The local `verify_model_path` of the function of the same name: the descriptor's
flag for the legacy ABI, the flag of the stored framework info for the modern ABI, and
0 otherwise. -/
def verify_model_path_flag (priv : GstTensorFilterPrivate) : Bool :=
  match priv.fw with
  | some fw =>
    if GST_TF_FW_V0 (some fw) then fw.verify_model_path
    else if GST_TF_FW_V1 (some fw) then priv.info.verify_model_path
    else false
  | none => false

/-- Source `verify_model_path`. -/
def verify_model_path (env : Env) (priv : GstTensorFilterPrivate) : Option Bool :=
  if g_strcmp0_eq priv.prop.fwname (some "custom-easy") then some true
  else
    match priv.prop.model_files with
    | some files =>
      if verify_model_path_flag priv then
        verify_model_path_loop env files 0 priv.prop.num_models true
      else some true
    | none => some true

/-! ## Validation and registration of a descriptor -/

/-- Source `nnstreamer_filter_validate`. The probe call of the modern branch receives a
freshly initialised local properties structure and a null handle and writes into an
uninitialised local info record. -/
def nnstreamer_filter_validate (env : Env) (tfsp : GstTensorFilterFramework) : Bool :=
  if GST_TF_FW_V0 (some tfsp) then
    if tfsp.name.isNone then false
    else if !tfsp.invoke_NN then false
    else if !(tfsp.getInputDimension && tfsp.getOutputDimension) && !tfsp.setInputDimension
    then false
    else true
  else if GST_TF_FW_V1 (some tfsp) then
    if !tfsp.invoke || tfsp.getFrameworkInfo.isNone || !tfsp.getModelInfo
        || tfsp.eventHandler.isNone then false
    else
      match tfsp.getFrameworkInfo with
      | none => false
      | some getFrameworkInfo =>
        let q := getFrameworkInfo (gst_tensor_filter_properties_init env.uninitialised_prop)
          none
        if q.1 ≠ 0 then false
        else if (q.2.getD env.uninitialised_info).name.isNone then false
        else true
  else false

/-- Source `nnstreamer_filter_probe`: the returned boolean and the registry contents
afterwards. A failed validation returns FALSE before anything is registered; the
`g_assert` on the second info query makes the call undefined when it fails. -/
def nnstreamer_filter_probe (env : Env) (contents : List (String × GstTensorFilterFramework))
    (tfsp : GstTensorFilterFramework) :
    Option (Bool × List (String × GstTensorFilterFramework)) :=
  if !nnstreamer_filter_validate env tfsp then some (false, contents)
  else if GST_TF_FW_V0 (some tfsp) then some (env.register_subplugin contents tfsp.name tfsp)
  else if GST_TF_FW_V1 (some tfsp) then
    match tfsp.getFrameworkInfo with
    | none => none
    | some getFrameworkInfo =>
      let q := getFrameworkInfo (gst_tensor_filter_properties_init env.uninitialised_prop) none
      if q.1 = 0 then
        some (env.register_subplugin contents (q.2.getD env.uninitialised_info).name tfsp)
      else none
  else some (env.register_subplugin contents none tfsp)

/-! ## Open and close -/

/-- Source `gst_tensor_filter_common_close_fw`. -/
def gst_tensor_filter_common_close_fw (priv : GstTensorFilterPrivate) :
    GstTensorFilterPrivate :=
  if priv.prop.fw_opened then
    let priv1 : GstTensorFilterPrivate :=
      match priv.fw with
      | some fw =>
        match fw.close with
        | some close =>
          { priv with
            privateData := close priv.prop priv.privateData
            trace := Call.close priv.prop :: priv.trace }
        | none => priv
      | none => priv
    { priv1 with
      prop := { priv1.prop with
        input_configured := false
        output_configured := false
        fw_opened := false
        fwname := none }
      fw := none
      privateData := none }
  else priv

/-- The test `model_files && num_models > 0 && model_files[0]` of the open function;
`model_files[0]` of an empty vector is its null terminator. -/
def model_configured (prop : GstTensorFilterProperties) : Bool :=
  match prop.model_files with
  | some files => decide (prop.num_models > 0) && files.head?.isSome
  | none => false

/-- The local `run_without_model` of the open function: the descriptor's flag for the
legacy ABI, the flag of the stored framework info for the modern ABI, and 0 otherwise. -/
def run_without_model_flag (priv : GstTensorFilterPrivate) (fw : GstTensorFilterFramework) :
    Bool :=
  if GST_TF_FW_V0 (some fw) then fw.run_without_model
  else if GST_TF_FW_V1 (some fw) then priv.info.run_without_model
  else false

/-- Source `gst_tensor_filter_common_open_fw`. -/
def gst_tensor_filter_common_open_fw (env : Env) (priv : GstTensorFilterPrivate) :
    Option GstTensorFilterPrivate :=
  match priv.fw with
  | none => some priv
  | some fw =>
    if priv.prop.fw_opened then some priv
    else
      match fw.open_ with
      | none => some { priv with prop := { priv.prop with fw_opened := true } }
      | some fw_open =>
        if !run_without_model_flag priv fw && !model_configured priv.prop then some priv
        else
          match verify_model_path env priv with
          | none => none
          | some false => some priv
          | some true =>
            let r := fw_open priv.prop priv.privateData
            let priv1 : GstTensorFilterPrivate :=
              { priv with
                privateData := r.2
                trace := Call.open_ priv.prop r.1 :: priv.trace }
            if r.1 ≥ 0 then
              if GST_TF_FW_V1 (some fw) then
                match fw.getFrameworkInfo with
                | none => none
                | some getFrameworkInfo =>
                  let q := getFrameworkInfo priv1.prop priv1.privateData
                  let priv2 : GstTensorFilterPrivate :=
                    { priv1 with
                      info := q.2.getD priv1.info
                      trace := Call.getFrameworkInfo priv1.prop priv1.privateData q.1
                        :: priv1.trace }
                  if q.1 ≠ 0 then
                    match fw.close with
                    | none => none
                    | some close =>
                      some { priv2 with
                        privateData := close priv2.prop priv2.privateData
                        trace := Call.close priv2.prop :: priv2.trace }
                  else some { priv2 with prop := { priv2.prop with fw_opened := true } }
              else some { priv1 with prop := { priv1.prop with fw_opened := true } }
            else some priv1

/-! ## Accelerator parsing against the bound backend -/

/-- The reads `info->hw_list[idx]` for `idx < info->num_hw`, mapped to their names; a
read through a null list or past its end is undefined. -/
def info_accl_support (info : GstTensorFilterFrameworkInfo) : Option (List String) :=
  (List.range info.num_hw).mapM
    (fun idx => ((info.hw_list.getD []).get? idx).map get_accl_hw_str)

/-- Source `gst_tensor_filter_parse_accelerator`. Every caller passes `&priv->prop` as
`prop`, so the function acts on `priv.prop`. -/
def gst_tensor_filter_parse_accelerator (priv : GstTensorFilterPrivate)
    (accelerators : Option String) : Option GstTensorFilterPrivate :=
  let priv1 : GstTensorFilterPrivate :=
    { priv with prop := { priv.prop with num_hw := 0, hw_list := none } }
  let fetched : Option (GstTensorFilterPrivate × Bool) :=
    if priv1.info.name.isNone then
      match priv1.fw with
      | none => none
      | some fw =>
        match fw.getFrameworkInfo with
        | none => none
        | some getFrameworkInfo =>
          let q := getFrameworkInfo priv1.prop priv1.privateData
          let info := q.2.getD priv1.info
          some ({ priv1 with
                  info := info
                  trace := Call.getFrameworkInfo priv1.prop priv1.privateData q.1
                    :: priv1.trace },
                !(decide (q.1 ≠ 0) || info.hw_list.isNone))
    else some (priv1, true)
  match fetched with
  | none => none
  | some (priv2, false) => some priv2
  | some (priv2, true) =>
    match info_accl_support priv2.info with
    | none => none
    | some accl_support =>
      let match_accl := parse_accl_hw_all accelerators accl_support
      some { priv2 with
        prop := { priv2.prop with num_hw := match_accl.length, hw_list := some match_accl } }

/-! ## Property setter -/

/-- The `PROP_FRAMEWORK` case of `gst_tensor_filter_common_set_property`. After a pending
accelerator string has been parsed at the bind of a modern-ABI backend the source frees
the string and leaves the pointer `accl_str` as it is; the model keeps the field's
value. -/
def set_property_framework (env : Env) (priv : GstTensorFilterPrivate)
    (value : Option GValue) : Option GstTensorFilterPrivate :=
  let fw_name := g_value_get_string value
  if priv.fw.isSome && g_strcmp0_eq priv.prop.fwname fw_name then some priv
  else
    let priv1 : GstTensorFilterPrivate :=
      if priv.fw.isSome then { gst_tensor_filter_common_close_fw priv with fw := none }
      else priv
    match nnstreamer_filter_find env fw_name with
    | none => some priv1
    | some fw =>
      let queried : Option (GstTensorFilterPrivate × Bool) :=
        if GST_TF_FW_V1 (some fw) then
          match fw.getFrameworkInfo with
          | none => none
          | some getFrameworkInfo =>
            let q := getFrameworkInfo priv1.prop none
            some ({ priv1 with
                    info := q.2.getD priv1.info
                    trace := Call.getFrameworkInfo priv1.prop none q.1 :: priv1.trace },
                  decide (q.1 < 0))
        else some (priv1, false)
      match queried with
      | none => none
      | some (priv2, true) => some priv2
      | some (priv2, false) =>
        let priv3 : GstTensorFilterPrivate :=
          { priv2 with fw := some fw, prop := { priv2.prop with fwname := fw_name } }
        if GST_TF_FW_V1 priv3.fw then
          if priv3.prop.accl_str.isSome then
            gst_tensor_filter_parse_accelerator priv3 priv3.prop.accl_str
          else some { priv3 with prop := { priv3.prop with hw_list := none } }
        else some priv3

/-- The reload attempt of the `PROP_MODEL` case on an open instance: the instance after
the callback (if one is called) and the resulting `status`. `old_prop` is the copy
`_prop` taken before the new list was parsed. -/
def reload_model (priv : GstTensorFilterPrivate) (old_prop : GstTensorFilterProperties) :
    Option (GstTensorFilterPrivate × Int) :=
  if GST_TF_FW_V0 priv.fw && priv.is_updatable then
    match priv.fw.bind (fun fw => fw.reloadModel) with
    | some reloadModel =>
      let r := reloadModel priv.prop priv.privateData
      some ({ priv with
              privateData := r.2
              trace := Call.reloadModel priv.prop r.1 :: priv.trace },
            if r.1 ≠ 0 then -1 else 0)
    | none => some (priv, 0)
  else if GST_TF_FW_V1 priv.fw && priv.is_updatable then
    match priv.fw.bind (fun fw => fw.eventHandler) with
    | some eventHandler =>
      let data := GstTensorFilterFrameworkEventData.model priv.prop.model_files
        priv.prop.num_models
      let st := eventHandler old_prop priv.privateData event_ops.RELOAD_MODEL (some data)
      some ({ priv with
              trace := Call.eventHandler old_prop event_ops.RELOAD_MODEL (some data) st
                :: priv.trace },
            if st ≠ 0 then -1 else 0)
    | none => none
  else some (priv, 0)

/-- The `PROP_MODEL` case of `gst_tensor_filter_common_set_property`. -/
def set_property_model (priv : GstTensorFilterPrivate) (value : Option GValue) :
    Option GstTensorFilterPrivate :=
  match g_value_get_string value with
  | none => some priv
  | some model_files =>
    let old_prop := priv.prop
    let priv1 : GstTensorFilterPrivate :=
      { priv with
        prop := gst_tensor_filter_parse_modelpaths_string priv.prop (some model_files) }
    if priv1.prop.fw_opened then
      match reload_model priv1 old_prop with
      | none => none
      | some (priv2, status) =>
        if status = 0 then some priv2
        else
          some { priv2 with
            prop := { priv2.prop with
              model_files := old_prop.model_files
              num_models := old_prop.num_models } }
    else some priv1

/-- The shared body of the `PROP_INPUT`, `PROP_INPUTTYPE`, `PROP_INPUTNAME`,
`PROP_OUTPUT`, `PROP_OUTPUTTYPE` and `PROP_OUTPUTNAME` cases: parse into the metadata
unless it is configured, and store the parsed count. -/
def set_property_meta (parse : GstTensorsInfo → Option String → GstTensorsInfo × Nat)
    (configured : Bool) (tensors : GstTensorsInfo) (value : Option GValue) :
    GstTensorsInfo :=
  if !configured && value.isSome then
    let r := parse tensors (g_value_get_string value)
    { r.1 with num_tensors := r.2 }
  else tensors

/-- The `PROP_CUSTOM` case of `gst_tensor_filter_common_set_property`. The source hands
the address `&priv->privateData` to `eventHandler`; the model hands over the handle. -/
def set_property_custom (priv : GstTensorFilterPrivate) (value : Option GValue) :
    Option GstTensorFilterPrivate :=
  if !priv.prop.fw_opened then
    some { priv with prop := { priv.prop with custom_properties := g_value_dup_string value } }
  else if GST_TF_FW_V0 priv.fw then some priv
  else if GST_TF_FW_V1 priv.fw then
    match priv.fw.bind (fun fw => fw.eventHandler) with
    | none => none
    | some eventHandler =>
      let data := GstTensorFilterFrameworkEventData.custom (g_value_dup_string value)
      let status := eventHandler priv.prop priv.privateData event_ops.CUSTOM_PROP (some data)
      let priv1 : GstTensorFilterPrivate :=
        { priv with
          trace := Call.eventHandler priv.prop event_ops.CUSTOM_PROP (some data) status
            :: priv.trace }
      if status = 0 then
        some { priv1 with
          prop := { priv1.prop with custom_properties := g_value_dup_string value } }
      else some priv1
  else some priv

/-- The `PROP_ACCELERATOR` case of `gst_tensor_filter_common_set_property`. -/
def set_property_accelerator (priv : GstTensorFilterPrivate)
    (value : Option GValue) : Option GstTensorFilterPrivate :=
  let accelerators := g_value_dup_string value
  if priv.prop.fw_opened then
    if GST_TF_FW_V0 priv.fw then some priv
    else if GST_TF_FW_V1 priv.fw then
      let old_prop := priv.prop
      let priv0 : GstTensorFilterPrivate :=
        { priv with prop := { priv.prop with hw_list := none } }
      match gst_tensor_filter_parse_accelerator priv0 accelerators with
      | none => none
      | some priv1 =>
        match priv1.fw.bind (fun fw => fw.eventHandler) with
        | none => none
        | some eventHandler =>
          let data := GstTensorFilterFrameworkEventData.accl priv1.prop.num_hw
            priv1.prop.hw_list
          let status := eventHandler old_prop priv1.privateData event_ops.SET_ACCELERATOR
            (some data)
          let priv2 : GstTensorFilterPrivate :=
            { priv1 with
              trace := Call.eventHandler old_prop event_ops.SET_ACCELERATOR (some data) status
                :: priv1.trace }
          if status = 0 then some priv2
          else
            some { priv2 with
              prop := { priv2.prop with num_hw := old_prop.num_hw, hw_list := old_prop.hw_list } }
    else some priv
  else if GST_TF_FW_V0 priv.fw then
    some { priv with prop := { priv.prop with accl_str := accelerators } }
  else if GST_TF_FW_V1 priv.fw then
    gst_tensor_filter_parse_accelerator priv accelerators
  else some priv

/-- The `PROP_IS_UPDATABLE` case of `gst_tensor_filter_common_set_property`. -/
def set_property_is_updatable (priv : GstTensorFilterPrivate) (value : Option GValue) :
    Option GstTensorFilterPrivate :=
  if GST_TF_FW_V0 priv.fw && (priv.fw.bind (fun fw => fw.reloadModel)).isNone then some priv
  else if GST_TF_FW_V1 priv.fw then
    match priv.fw.bind (fun fw => fw.eventHandler) with
    | none => none
    | some eventHandler =>
      let status := eventHandler priv.prop priv.privateData event_ops.RELOAD_MODEL none
      let priv1 : GstTensorFilterPrivate :=
        { priv with
          trace := Call.eventHandler priv.prop event_ops.RELOAD_MODEL none status
            :: priv.trace }
      if status = -ENOENT then some priv1
      else some { priv1 with is_updatable := g_value_get_boolean value }
  else some { priv with is_updatable := g_value_get_boolean value }

/-- The `PROP_INPUTLAYOUT` case of `gst_tensor_filter_common_set_property`. The guard of
the initial-configuration branch reads `output_configured`. -/
def set_property_inputlayout (env : Env) (priv : GstTensorFilterPrivate)
    (value : Option GValue) : Option GstTensorFilterPrivate :=
  if !priv.prop.output_configured && value.isSome then
    let r := gst_tensors_parse_layouts_string priv.prop.input_layout (g_value_get_string value)
    some { priv with
      prop := { priv.prop with
        input_layout := r.1
        input_meta := { priv.prop.input_meta with num_tensors := r.2 } } }
  else if value.isSome then
    if GST_TF_FW_V0 priv.fw then some priv
    else if GST_TF_FW_V1 priv.fw then
      let r := gst_tensors_parse_layouts_string env.uninitialised_layout
        (g_value_get_string value)
      let data := GstTensorFilterFrameworkEventData.layout none r.1
      match priv.fw.bind (fun fw => fw.eventHandler) with
      | none => none
      | some eventHandler =>
        let status := eventHandler priv.prop priv.privateData event_ops.SET_INPUT_PROP
          (some data)
        let priv1 : GstTensorFilterPrivate :=
          { priv with
            trace := Call.eventHandler priv.prop event_ops.SET_INPUT_PROP (some data) status
              :: priv.trace }
        if status = 0 then
          some { priv1 with prop := { priv1.prop with input_layout := r.1 } }
        else some priv1
    else some priv
  else some priv

/-- The `PROP_OUTPUTLAYOUT` case of `gst_tensor_filter_common_set_property`. -/
def set_property_outputlayout (env : Env) (priv : GstTensorFilterPrivate)
    (value : Option GValue) : Option GstTensorFilterPrivate :=
  if !priv.prop.output_configured && value.isSome then
    let r := gst_tensors_parse_layouts_string priv.prop.output_layout (g_value_get_string value)
    some { priv with
      prop := { priv.prop with
        output_layout := r.1
        output_meta := { priv.prop.output_meta with num_tensors := r.2 } } }
  else if value.isSome then
    if GST_TF_FW_V0 priv.fw then some priv
    else if GST_TF_FW_V1 priv.fw then
      let r := gst_tensors_parse_layouts_string env.uninitialised_layout
        (g_value_get_string value)
      let data := GstTensorFilterFrameworkEventData.layout none r.1
      match priv.fw.bind (fun fw => fw.eventHandler) with
      | none => none
      | some eventHandler =>
        let status := eventHandler priv.prop priv.privateData event_ops.SET_OUTPUT_PROP
          (some data)
        let priv1 : GstTensorFilterPrivate :=
          { priv with
            trace := Call.eventHandler priv.prop event_ops.SET_OUTPUT_PROP (some data) status
              :: priv.trace }
        if status = 0 then
          some { priv1 with prop := { priv1.prop with output_layout := r.1 } }
        else some priv1
    else some priv
  else some priv

/-- Replaces `input_meta` of the instance. -/
def with_input_meta (priv : GstTensorFilterPrivate) (m : GstTensorsInfo) :
    GstTensorFilterPrivate :=
  { priv with prop := { priv.prop with input_meta := m } }

/-- Replaces `output_meta` of the instance. -/
def with_output_meta (priv : GstTensorFilterPrivate) (m : GstTensorsInfo) :
    GstTensorFilterPrivate :=
  { priv with prop := { priv.prop with output_meta := m } }

/-- The body of the `switch` of `gst_tensor_filter_common_set_property`: the instance
after the case of `prop_id`, or `none` when the case is undefined. Only called with a
known `prop_id`. -/
def set_property_case (env : Env) (priv : GstTensorFilterPrivate) (prop_id : Nat)
    (value : Option GValue) : Option GstTensorFilterPrivate :=
  if prop_id = PROP_SILENT then some { priv with silent := g_value_get_boolean value }
  else if prop_id = PROP_FRAMEWORK then set_property_framework env priv value
  else if prop_id = PROP_MODEL then set_property_model priv value
  else if prop_id = PROP_INPUT then
    some (with_input_meta priv (set_property_meta env.gst_tensors_info_parse_dimensions_string
      priv.prop.input_configured priv.prop.input_meta value))
  else if prop_id = PROP_OUTPUT then
    some (with_output_meta priv (set_property_meta env.gst_tensors_info_parse_dimensions_string
      priv.prop.output_configured priv.prop.output_meta value))
  else if prop_id = PROP_INPUTTYPE then
    some (with_input_meta priv (set_property_meta env.gst_tensors_info_parse_types_string
      priv.prop.input_configured priv.prop.input_meta value))
  else if prop_id = PROP_OUTPUTTYPE then
    some (with_output_meta priv (set_property_meta env.gst_tensors_info_parse_types_string
      priv.prop.output_configured priv.prop.output_meta value))
  else if prop_id = PROP_INPUTNAME then
    some (with_input_meta priv (set_property_meta env.gst_tensors_info_parse_names_string
      priv.prop.input_configured priv.prop.input_meta value))
  else if prop_id = PROP_OUTPUTNAME then
    some (with_output_meta priv (set_property_meta env.gst_tensors_info_parse_names_string
      priv.prop.output_configured priv.prop.output_meta value))
  else if prop_id = PROP_CUSTOM then set_property_custom priv value
  else if prop_id = PROP_ACCELERATOR then set_property_accelerator priv value
  else if prop_id = PROP_IS_UPDATABLE then set_property_is_updatable priv value
  else if prop_id = PROP_INPUTLAYOUT then set_property_inputlayout env priv value
  else if prop_id = PROP_OUTPUTLAYOUT then set_property_outputlayout env priv value
  else some priv

/-- The property ids that have a case in the `switch`; every other id (among them
`PROP_0` and the read-only `PROP_SUBPLUGINS`) falls to `default`. -/
def known_prop_id (prop_id : Nat) : Bool :=
  decide (1 ≤ prop_id ∧ prop_id ≤ 15 ∧ prop_id ≠ PROP_SUBPLUGINS)

/-- Source `gst_tensor_filter_common_set_property`: the returned boolean and the
instance afterwards; `none` when the call is undefined. -/
def gst_tensor_filter_common_set_property (env : Env) (priv : GstTensorFilterPrivate)
    (prop_id : Nat) (value : Option GValue) : Option (Bool × GstTensorFilterPrivate) :=
  if known_prop_id prop_id then
    (set_property_case env priv prop_id value).map (fun priv' => (true, priv'))
  else some (false, priv)

/-! ## Property getter -/

/-- Source `gst_tensors_get_layout_string`: null when there is no tensor, otherwise the
comma-separated layout names of the first `num_tensors` entries. A read past the end of
the layout array is undefined. -/
def gst_tensors_get_layout_string (info : GstTensorsInfo) (layout : List tensor_layout) :
    Option (Option String) :=
  if info.num_tensors > 0 then
    ((List.range info.num_tensors).mapM
      (fun i => (layout.get? i).map gst_tensor_get_layout_string)).map
      (fun names => some (String.intercalate "," names))
  else some none

/-- The loop of the `PROP_MODEL` case of the getter: `model_files[idx]` for
`idx < num_models`, joined by commas. A read through a null vector or past its end is
undefined. -/
def get_property_model (prop : GstTensorFilterProperties) : Option String :=
  ((List.range prop.num_models).mapM (fun idx => (prop.model_files.getD []).get? idx)).map
    (fun files => String.intercalate "," files)

/-- The loop of the `PROP_SUBPLUGINS` case of the getter: the two built-in names followed
by every configured file name without the prefix and the file extension. A file name
shorter than prefix plus extension is undefined. -/
def get_property_subplugins (env : Env) : Option String :=
  (env.nnsconf_get_subplugin_info.mapM (fun name =>
    if env.prefix_str.length + env.NNSTREAMER_SO_FILE_EXTENSION.length ≤ name.length then
      some ("," ++ String.mk ((name.data.drop env.prefix_str.length).take
        (name.length - env.prefix_str.length - env.NNSTREAMER_SO_FILE_EXTENSION.length)))
    else none)).map
    (fun parts => parts.foldl (fun acc part => acc ++ part) "custom,custom-easy")

/-- The `PROP_ACCELERATOR` case of the getter: the raw string (or the empty string) when
no backend is bound or the backend is legacy; for a modern backend the names of
`hw_list[idx]`, `idx < num_hw`, appended one after the other. The value is left untouched
for any other ABI version. -/
def get_property_accelerator (priv : GstTensorFilterPrivate) : Option (Option GValue) :=
  if priv.fw.isNone || GST_TF_FW_V0 priv.fw then
    match priv.prop.accl_str with
    | some accl_str => some (some (GValue.string (some accl_str)))
    | none => some (some (GValue.string (some "")))
  else if GST_TF_FW_V1 priv.fw then
    if priv.prop.num_hw = 0 then some (some (GValue.string (some "")))
    else
      ((List.range priv.prop.num_hw).mapM
        (fun idx => ((priv.prop.hw_list.getD []).get? idx).map get_accl_hw_str)).map
        (fun names =>
          some (GValue.string (some (names.foldl (fun acc name => acc ++ name) ""))))
  else some none

/-- The shared body of the metadata cases of the getter: the string produced by the
tensor-info function when there is at least one tensor, otherwise the empty string. -/
def get_property_meta (to_string : GstTensorsInfo → Option String) (tensors : GstTensorsInfo) :
    GValue :=
  if tensors.num_tensors > 0 then GValue.string (to_string tensors)
  else GValue.string (some "")

/-- The shared body of the layout cases of the getter. -/
def get_property_layout (tensors : GstTensorsInfo) (layout : List tensor_layout) :
    Option GValue :=
  if tensors.num_tensors > 0 then
    (gst_tensors_get_layout_string tensors layout).map (fun str => GValue.string str)
  else some (GValue.string (some ""))

/-- The body of the `switch` of `gst_tensor_filter_common_get_property`: the value written
for a known `prop_id` (`some none` when the case writes nothing), or `none` when the
case is undefined. -/
def get_property_case (env : Env) (priv : GstTensorFilterPrivate) (prop_id : Nat) :
    Option (Option GValue) :=
  if prop_id = PROP_SILENT then some (some (GValue.boolean priv.silent))
  else if prop_id = PROP_FRAMEWORK then some (some (GValue.string priv.prop.fwname))
  else if prop_id = PROP_MODEL then
    (get_property_model priv.prop).map (fun models => some (GValue.string (some models)))
  else if prop_id = PROP_INPUT then
    some (some (get_property_meta env.gst_tensors_info_get_dimensions_string
      priv.prop.input_meta))
  else if prop_id = PROP_OUTPUT then
    some (some (get_property_meta env.gst_tensors_info_get_dimensions_string
      priv.prop.output_meta))
  else if prop_id = PROP_INPUTTYPE then
    some (some (get_property_meta env.gst_tensors_info_get_types_string priv.prop.input_meta))
  else if prop_id = PROP_OUTPUTTYPE then
    some (some (get_property_meta env.gst_tensors_info_get_types_string priv.prop.output_meta))
  else if prop_id = PROP_INPUTNAME then
    some (some (get_property_meta env.gst_tensors_info_get_names_string priv.prop.input_meta))
  else if prop_id = PROP_OUTPUTNAME then
    some (some (get_property_meta env.gst_tensors_info_get_names_string priv.prop.output_meta))
  else if prop_id = PROP_CUSTOM then
    some (some (GValue.string priv.prop.custom_properties))
  else if prop_id = PROP_SUBPLUGINS then
    (get_property_subplugins env).map (fun str => some (GValue.string (some str)))
  else if prop_id = PROP_ACCELERATOR then get_property_accelerator priv
  else if prop_id = PROP_IS_UPDATABLE then some (some (GValue.boolean priv.is_updatable))
  else if prop_id = PROP_INPUTLAYOUT then
    (get_property_layout priv.prop.input_meta priv.prop.input_layout).map some
  else if prop_id = PROP_OUTPUTLAYOUT then
    (get_property_layout priv.prop.output_meta priv.prop.output_layout).map some
  else some none

/-- Source `gst_tensor_filter_common_get_property`: the returned boolean and the value
written (if any); `none` when the call is undefined. The getter does not change the
instance. -/
def gst_tensor_filter_common_get_property (env : Env) (priv : GstTensorFilterPrivate)
    (prop_id : Nat) : Option (Bool × Option GValue) :=
  if decide (1 ≤ prop_id ∧ prop_id ≤ 15) then
    (get_property_case env priv prop_id).map (fun value => (true, value))
  else some (false, none)

/-! ## Sample backends and instances -/

/-- The all-default properties structure. -/
def prop0 : GstTensorFilterProperties :=
  { fwname := none, fw_opened := false, model_files := none, num_models := 0,
    input_configured := false, input_meta := gst_tensors_info_init,
    input_layout := gst_tensors_layout_init, output_configured := false,
    output_meta := gst_tensors_info_init, output_layout := gst_tensors_layout_init,
    custom_properties := none, hw_list := none, num_hw := 0, accl_str := none }

/-- An empty framework-info record. -/
def info0 : GstTensorFilterFrameworkInfo :=
  { name := none, allow_in_place := false, allocate_in_invoke := false,
    run_without_model := false, verify_model_path := false, hw_list := none, num_hw := 0 }

/-- A freshly constructed instance. -/
def priv0 : GstTensorFilterPrivate :=
  gst_tensor_filter_common_init_property
    { prop := prop0, info := info0, fw := none, privateData := none, silent := false,
      configured := false, is_updatable := false, trace := [] }

/-- A legacy-ABI backend with `open`, `close` and `reloadModel` callbacks; `open` succeeds
and `reloadModel` reports the failure status `reload_status`. -/
def sample_v0 (reload_status : Int) : GstTensorFilterFramework :=
  { version := 0
    open_ := some (fun _ _ => (0, some 1))
    close := some (fun _ _ => none)
    name := some "sample-v0"
    allocate_in_invoke := false
    run_without_model := false
    verify_model_path := false
    invoke_NN := true
    getInputDimension := true
    getOutputDimension := true
    setInputDimension := false
    reloadModel := some (fun _ pd => (reload_status, pd))
    allocateInInvoke := none
    invoke := false
    getFrameworkInfo := none
    getModelInfo := false
    eventHandler := none }

/-- The framework info reported by `sample_v1`. -/
def sample_v1_info : GstTensorFilterFrameworkInfo :=
  { name := some "sample-v1", allow_in_place := false, allocate_in_invoke := false,
    run_without_model := false, verify_model_path := false,
    hw_list := some [accl_hw.ACCL_CPU, accl_hw.ACCL_GPU], num_hw := 2 }

/-- A modern-ABI backend. `getFrameworkInfo` answers `info_status` once the backend has
been opened (non-null handle) and `0` before; `eventHandler` answers `event_status`. -/
def sample_v1 (info_status event_status : Int) : GstTensorFilterFramework :=
  { version := 1
    open_ := some (fun _ _ => (0, some 1))
    close := some (fun _ _ => none)
    name := none
    allocate_in_invoke := false
    run_without_model := false
    verify_model_path := false
    invoke_NN := false
    getInputDimension := false
    getOutputDimension := false
    setInputDimension := false
    reloadModel := none
    allocateInInvoke := none
    invoke := true
    getFrameworkInfo := some (fun _ pd =>
      (if pd.isSome then info_status else 0, some sample_v1_info))
    getModelInfo := true
    eventHandler := some (fun _ _ _ _ => event_status) }

/-- An environment with the given registry contents, in which `model.bin` is the only
regular file, and whose remaining library functions are trivial. -/
def sample_env (registry : List (String × GstTensorFilterFramework)) : Env :=
  { get_subplugin := fun name =>
      match name with
      | none => none
      | some n => (registry.find? (fun e => e.1 == n)).map (fun e => e.2)
    g_file_test_is_regular := fun path => path == "model.bin"
    gst_tensors_info_parse_dimensions_string := fun m _ => (m, 0)
    gst_tensors_info_parse_types_string := fun m _ => (m, 0)
    gst_tensors_info_parse_names_string := fun m _ => (m, 0)
    uninitialised_layout := gst_tensors_layout_init
    gst_tensors_info_get_dimensions_string := fun _ => some "dimensions"
    gst_tensors_info_get_types_string := fun _ => some "types"
    gst_tensors_info_get_names_string := fun _ => some "names"
    nnsconf_get_subplugin_info := []
    prefix_str := "libnnstreamer_filter_"
    NNSTREAMER_SO_FILE_EXTENSION := ".so"
    uninitialised_prop := prop0
    uninitialised_info := info0
    register_subplugin := fun contents name data =>
      match name with
      | none => (false, contents)
      | some n =>
        if contents.any (fun e => e.1 == n) then (false, contents)
        else (true, contents ++ [(n, data)]) }

/-- A legacy-ABI backend registered under the name `custom-easy` that declares
`verify_model_path`. -/
def sample_custom_easy : GstTensorFilterFramework :=
  { sample_v0 0 with name := some "custom-easy", verify_model_path := true }

/-- A legacy-ABI backend without an `open` callback that declares `verify_model_path`. -/
def sample_no_open : GstTensorFilterFramework :=
  { sample_v0 0 with name := some "no-open", open_ := none, verify_model_path := true }

/-- A legacy-ABI backend that declares `verify_model_path`. -/
def sample_verify : GstTensorFilterFramework :=
  { sample_v0 0 with name := some "verify", verify_model_path := true }

/-- The registry used by the samples. -/
def sample_registry (reload_status info_status event_status : Int) :
    List (String × GstTensorFilterFramework) :=
  [("sample-v0", sample_v0 reload_status), ("sample-v1", sample_v1 info_status event_status),
   ("custom-easy", sample_custom_easy), ("no-open", sample_no_open),
   ("verify", sample_verify)]

/-- Sets a string property on an instance that may already be undefined. -/
def then_set (env : Env) (priv : Option GstTensorFilterPrivate) (prop_id : Nat)
    (value : String) : Option GstTensorFilterPrivate :=
  priv.bind (fun p =>
    (gst_tensor_filter_common_set_property env p prop_id
      (some (GValue.string (some value)))).map (fun r => r.2))

/-- Sets a boolean property on an instance that may already be undefined. -/
def then_set_bool (env : Env) (priv : Option GstTensorFilterPrivate) (prop_id : Nat)
    (value : Bool) : Option GstTensorFilterPrivate :=
  priv.bind (fun p =>
    (gst_tensor_filter_common_set_property env p prop_id
      (some (GValue.boolean value))).map (fun r => r.2))

/-- Opens an instance that may already be undefined. -/
def then_open (env : Env) (priv : Option GstTensorFilterPrivate) :
    Option GstTensorFilterPrivate :=
  priv.bind (gst_tensor_filter_common_open_fw env)

/-- The name of the callback a trace entry records. -/
def Call.name : Call → String
  | Call.open_ _ _ => "open"
  | Call.close _ => "close"
  | Call.getFrameworkInfo _ _ _ => "getFrameworkInfo"
  | Call.reloadModel _ _ => "reloadModel"
  | Call.eventHandler _ _ _ _ => "eventHandler"

/-- The sample environment with callbacks that all report success. -/
def sample_env0 : Env :=
  sample_env (sample_registry 0 0 0)

/-- A fresh instance after `set(framework, "custom-easy")` and `set(model, "missing.bin")`. -/
def priv_custom_easy : Option GstTensorFilterPrivate :=
  then_set sample_env0 (then_set sample_env0 (some priv0) PROP_FRAMEWORK "custom-easy")
    PROP_MODEL "missing.bin"

/-- A fresh instance after `set(framework, "no-open")` and `set(model, "missing.bin")`. -/
def priv_no_open : Option GstTensorFilterPrivate :=
  then_set sample_env0 (then_set sample_env0 (some priv0) PROP_FRAMEWORK "no-open")
    PROP_MODEL "missing.bin"

/-- A fresh instance after `set(framework, "sample-v0")` and `set(model, ",")`. -/
def priv_empty_model : Option GstTensorFilterPrivate :=
  then_set sample_env0 (then_set sample_env0 (some priv0) PROP_FRAMEWORK "sample-v0")
    PROP_MODEL ","

/-- An instance bound to `sample_verify` with the model list `model.bin`, `missing.bin`. -/
def priv_verify : GstTensorFilterPrivate :=
  { priv0 with
    fw := some sample_verify
    prop := { priv0.prop with
      fwname := some "verify"
      model_files := some ["model.bin", "missing.bin"]
      num_models := 2 } }

/-- An instance bound to `sample_v1` with the model list `model.bin`. -/
def priv_v1_bound (info_status event_status : Int) : GstTensorFilterPrivate :=
  { priv0 with
    fw := some (sample_v1 info_status event_status)
    info := sample_v1_info
    prop := { priv0.prop with
      fwname := some "sample-v1"
      model_files := some ["model.bin"]
      num_models := 1 } }

/-- An instance bound to `sample_v0` with no model set. -/
def priv_v0_bound (reload_status : Int) : GstTensorFilterPrivate :=
  { priv0 with
    fw := some (sample_v0 reload_status)
    prop := { priv0.prop with fwname := some "sample-v0" } }

/-! ## Notions used by the statements -/

/-- The properties structure that a recorded callback invocation received. -/
def Call.prop : Call → GstTensorFilterProperties
  | Call.open_ prop _ => prop
  | Call.close prop => prop
  | Call.getFrameworkInfo prop _ _ => prop
  | Call.reloadModel prop _ => prop
  | Call.eventHandler prop _ _ _ => prop

/-- A recorded hot-reload callback that reported failure: `reloadModel`, or `eventHandler`
for `RELOAD_MODEL`, `SET_ACCELERATOR` or `CUSTOM_PROP`, with a non-zero status. -/
def Call.is_failed_reload : Call → Bool
  | Call.reloadModel _ status => decide (status ≠ 0)
  | Call.eventHandler _ ops _ status =>
    (ops == event_ops.RELOAD_MODEL || ops == event_ops.SET_ACCELERATOR
      || ops == event_ops.CUSTOM_PROP) && decide (status ≠ 0)
  | _ => false

/-- The states an instance can reach: from `gst_tensor_filter_common_init_property` by any
sequence of defined `set_property`, `open_fw` and `close_fw` calls. -/
inductive Reachable (env : Env) : GstTensorFilterPrivate → Prop
  | init (priv : GstTensorFilterPrivate) :
      Reachable env (gst_tensor_filter_common_init_property priv)
  | set_property (priv priv' : GstTensorFilterPrivate) (prop_id : Nat)
      (value : Option GValue) (ret : Bool) :
      Reachable env priv →
      gst_tensor_filter_common_set_property env priv prop_id value = some (ret, priv') →
      Reachable env priv'
  | open_fw (priv priv' : GstTensorFilterPrivate) :
      Reachable env priv →
      gst_tensor_filter_common_open_fw env priv = some priv' →
      Reachable env priv'
  | close_fw (priv : GstTensorFilterPrivate) :
      Reachable env priv →
      Reachable env (gst_tensor_filter_common_close_fw priv)

/-- The hot-reloadable part of the configuration agrees in two properties structures:
`model_files`, `num_models`, `hw_list`, `num_hw` and `custom_properties`. -/
def same_reloadable (before after : GstTensorFilterProperties) : Prop :=
  after.model_files = before.model_files ∧ after.num_models = before.num_models ∧
  after.hw_list = before.hw_list ∧ after.num_hw = before.num_hw ∧
  after.custom_properties = before.custom_properties

/-- The facts shared by every case of the setter other than `PROP_FRAMEWORK`: the binding
and `fw_opened` are kept, the trace grows by the calls made, and a failed hot-reload among
those calls leaves the reloadable configuration as it was. -/
def case_frame (p p' : GstTensorFilterPrivate) : Prop :=
  p'.fw = p.fw ∧ p'.prop.fw_opened = p.prop.fw_opened ∧
  ∃ l, p'.trace = l ++ p.trace ∧
    ((∃ c ∈ l, c.is_failed_reload = true) → same_reloadable p.prop p'.prop)

/-- An open, updatable instance bound to `sample_v0` with the model list `model.bin`. -/
def priv_v0_open (reload_status : Int) : GstTensorFilterPrivate :=
  { priv0 with
    fw := some (sample_v0 reload_status)
    is_updatable := true
    privateData := some 1
    prop := { priv0.prop with
      fwname := some "sample-v0"
      fw_opened := true
      model_files := some ["model.bin"]
      num_models := 1 } }

/-- An open, updatable instance bound to `sample_v1` with the model list `model.bin`. -/
def priv_v1_open (info_status event_status : Int) : GstTensorFilterPrivate :=
  { priv_v1_bound info_status event_status with
    is_updatable := true
    privateData := some 1
    prop := { (priv_v1_bound info_status event_status).prop with fw_opened := true } }

/-- A fresh instance after `set(framework, "no-open")`. -/
def priv_no_open_bound : GstTensorFilterPrivate :=
  { priv0 with
    fw := some sample_no_open
    prop := { priv0.prop with fwname := some "no-open" } }

/-- The instance `priv_no_open_bound` after `open_fw`. -/
def priv_no_open_opened : GstTensorFilterPrivate :=
  { priv_no_open_bound with prop := { priv_no_open_bound.prop with fw_opened := true } }

/-- The state of `priv_v0_open (-1)` after a failed reload of `new.bin`: only the trace
has grown. -/
def priv_v0_failed_reload : GstTensorFilterPrivate :=
  { priv_v0_open (-1) with
    trace :=
      [Call.reloadModel
        { (priv_v0_open (-1)).prop with model_files := some ["new.bin"], num_models := 1 }
        (-1)] }

/-- A fresh instance after `set(framework, "sample-v0")`, `set(model, "model.bin")` and
`open_fw`, with reload status `reload_status` of the backend. -/
def priv_v0_running (reload_status : Int) : Option GstTensorFilterPrivate :=
  then_open (sample_env (sample_registry reload_status 0 0))
    (then_set (sample_env (sample_registry reload_status 0 0))
      (then_set (sample_env (sample_registry reload_status 0 0)) (some priv0)
        PROP_FRAMEWORK "sample-v0")
      PROP_MODEL "model.bin")

/-! ## Samples and notions for the property and resolver claims -/

/-- An instance bound to `sample_v0`, not open, whose input metadata is configured while
the output metadata is not. -/
def priv_input_configured : GstTensorFilterPrivate :=
  { priv_v0_bound 0 with
    prop := { (priv_v0_bound 0).prop with input_configured := true } }

/-- Reads a property of an instance that may already be undefined. -/
def then_get (env : Env) (priv : Option GstTensorFilterPrivate) (prop_id : Nat) :
    Option (Bool × Option GValue) :=
  priv.bind (fun p => gst_tensor_filter_common_get_property env p prop_id)

/-- A fresh instance after `set(framework, "sample-v1")` and
`set(accelerator, "true:(cpu,gpu)")`. -/
def priv_v1_accelerated : Option GstTensorFilterPrivate :=
  then_set sample_env0 (then_set sample_env0 (some priv0) PROP_FRAMEWORK "sample-v1")
    PROP_ACCELERATOR "true:(cpu,gpu)"

/-- The characters with a special meaning in the modelled pattern syntax, the dot apart
(`create_regex` escapes every dot). -/
def regex_metachars : List Char :=
  ['(', ')', '|', '?', '*', '[', ']', '\\', '^', '$', '+', '{', '}']

/-- An accelerator name made of ordinary characters: none of its characters is a pattern
metacharacter other than the dot. Letters, digits and dots are ordinary. -/
def plain_name (name : String) : Bool :=
  name.data.all (fun c => !regex_metachars.contains c)

/-- A character list with every dot preceded by a backslash. -/
def escape_dots : List Char → List Char
  | [] => []
  | c :: cs => if c = '.' then '\\' :: '.' :: escape_dots cs else c :: escape_dots cs

/-- The expression a name stands for in a pattern: its characters as literals. -/
def name_regex (name : String) : Regex :=
  seq_of (name.data.map Regex.char)

/-- The names that `create_regex` puts into the pattern, in order: the first name, then
the second name once more than the list has it. -/
def visited_names : List String → List String
  | [] => []
  | [first] => [first]
  | first :: second :: rest => first :: second :: second :: rest

/-- The compiled form of the enable pattern
`(^(true)[:]?([(]?(n1|n2|...)*[)]?))` for the alternation `names`. -/
def enable_regex (names : Regex) : Regex :=
  Regex.group
    (Regex.cat Regex.bol
      (Regex.cat
        (Regex.group
          (Regex.cat (Regex.char 't')
            (Regex.cat (Regex.char 'r') (Regex.cat (Regex.char 'u') (Regex.char 'e')))))
        (Regex.cat (Regex.opt (Regex.cls [':']))
          (Regex.group
            (Regex.cat (Regex.opt (Regex.cls ['(']))
              (Regex.cat (Regex.star (Regex.group names)) (Regex.opt (Regex.cls [')']))))))))

/-- The string begins with `true`, compared caselessly. -/
def begins_with_true (p : String) : Bool :=
  match p.data with
  | a :: b :: c :: d :: _ =>
    caseless_eq a 't' && caseless_eq b 'r' && caseless_eq c 'u' && caseless_eq d 'e'
  | _ => false

/-- The word is the canonical name of some accelerator. -/
def is_canonical_name (word : String) : Bool :=
  accl_hw_values.any (fun a => get_accl_hw_str a == word)

/-- A modern-ABI backend whose info query succeeds and reports the empty string as its
name. -/
def sample_v1_empty_name : GstTensorFilterFramework :=
  { sample_v1 0 0 with
    getFrameworkInfo := some (fun _ _ => (0, some { sample_v1_info with name := some "" })) }

/-- A legacy-ABI descriptor without a name. -/
def sample_v0_unnamed : GstTensorFilterFramework :=
  { sample_v0 0 with name := none }

/-- The instance `priv_v1_bound 0 0` with the list `gpu`, `gpu` stored as resolved
accelerators. -/
def priv_v1_gpu_twice : GstTensorFilterPrivate :=
  { priv_v1_bound 0 0 with
    prop := { (priv_v1_bound 0 0).prop with
      num_hw := 2
      hw_list := some [accl_hw.ACCL_GPU, accl_hw.ACCL_GPU] } }

/-- A descriptor whose ABI version is neither 0 nor 1. -/
def sample_v2 : GstTensorFilterFramework :=
  { sample_v1 0 0 with version := 2 }

/-! # Theorems -/

/-! ## Close (C10) -/

/-- C10. Close: on an open instance `gst_tensor_filter_common_close_fw` records a call of
the backend's close callback exactly when one is present, sets `input_configured`,
`output_configured` and `fw_opened` to FALSE and clears `fwname` and `fw`; on an instance
that is not open it returns the instance unchanged (no callback), so closing a closed
instance is a no-op. -/
theorem close_fw_spec (priv : GstTensorFilterPrivate) :
    (priv.prop.fw_opened = true →
      (gst_tensor_filter_common_close_fw priv).prop.input_configured = false ∧
      (gst_tensor_filter_common_close_fw priv).prop.output_configured = false ∧
      (gst_tensor_filter_common_close_fw priv).prop.fw_opened = false ∧
      (gst_tensor_filter_common_close_fw priv).prop.fwname = none ∧
      (gst_tensor_filter_common_close_fw priv).fw = none ∧
      (gst_tensor_filter_common_close_fw priv).trace =
        (if (priv.fw.bind (fun fw => fw.close)).isSome
          then Call.close priv.prop :: priv.trace else priv.trace)) ∧
    (priv.prop.fw_opened = false → gst_tensor_filter_common_close_fw priv = priv) ∧
    gst_tensor_filter_common_close_fw (gst_tensor_filter_common_close_fw priv) =
      gst_tensor_filter_common_close_fw priv := by
  refine ⟨?_, ?_, ?_⟩
  · intro h
    unfold gst_tensor_filter_common_close_fw
    rcases hfw : priv.fw with _ | fw
    · simp [h]
    · rcases hc : fw.close with _ | c <;> simp [h, hc]
  · intro h
    simp [gst_tensor_filter_common_close_fw, h]
  · rcases h : priv.prop.fw_opened with _ | _
    · simp [gst_tensor_filter_common_close_fw, h]
    · have h2 : (gst_tensor_filter_common_close_fw priv).prop.fw_opened = false := by
        unfold gst_tensor_filter_common_close_fw
        rcases hfw : priv.fw with _ | fw
        · simp [h]
        · rcases hc : fw.close with _ | c <;> simp [h, hc]
      generalize gst_tensor_filter_common_close_fw priv = p at h2
      simp [gst_tensor_filter_common_close_fw, h2]

/-! ## Open (C7, C8, C9) -/

theorem verify_model_path_loop_eq (env : Env) (files : List String) :
    ∀ (k i : Nat) (ret : Bool), i + k = files.length →
      verify_model_path_loop env files i k ret =
        some (ret && (files.drop i).all env.g_file_test_is_regular) := by
  intro k
  induction k with
  | zero =>
    intro i ret h
    have hi : files.length ≤ i := by omega
    simp [verify_model_path_loop, List.drop_eq_nil_of_le hi]
  | succ k ih =>
    intro i ret h
    have hi : i < files.length := by omega
    have hd : files.drop i = files[i] :: files.drop (i + 1) := List.drop_eq_getElem_cons hi
    have hg : files.get? i = some files[i] := by simp [List.getElem?_eq_getElem hi]
    rw [verify_model_path_loop, hg]
    simp only []
    rw [ih (i + 1) _ (by omega), hd, List.all_cons]
    generalize (files.drop (i + 1)).all env.g_file_test_is_regular = rest
    cases env.g_file_test_is_regular files[i] <;> cases ret <;> cases rest <;> rfl

theorem verify_model_path_eq (env : Env) (priv : GstTensorFilterPrivate)
    (files : List String) (hname : priv.prop.fwname ≠ some "custom-easy")
    (hverify : verify_model_path_flag priv = true)
    (hfiles : priv.prop.model_files = some files)
    (hnum : priv.prop.num_models = files.length) :
    verify_model_path env priv = some (files.all env.g_file_test_is_regular) := by
  unfold verify_model_path
  have h1 : g_strcmp0_eq priv.prop.fwname (some "custom-easy") = false := by
    simp [g_strcmp0_eq, hname]
  simp [h1, hfiles, hverify, hnum, verify_model_path_loop_eq env files files.length 0 true]

theorem model_configured_iff (prop : GstTensorFilterProperties) :
    model_configured prop = true ↔
      ∃ files, prop.model_files = some files ∧ files ≠ [] ∧ 0 < prop.num_models := by
  unfold model_configured
  rcases h : prop.model_files with _ | files
  · simp
  · cases files <;> simp

/-- C7 (amended). Open verifies every model path: for every bound, not yet open backend
that has an open callback, is not bound under the name `custom-easy` and declares
`verify_model_path` (descriptor flag for the legacy ABI, framework-info flag for the modern
ABI), and every model list of N >= 1 paths in which at least one path, at any index, is not
an existing regular file, `gst_tensor_filter_common_open_fw` returns the instance
unchanged: `fw_opened` stays FALSE and no callback is invoked. -/
theorem open_fw_verifies_model_paths (env : Env) (priv : GstTensorFilterPrivate)
    (fw : GstTensorFilterFramework)
    (fw_open : GstTensorFilterProperties → PrivateData → Int × PrivateData)
    (files : List String)
    (hfw : priv.fw = some fw) (hcb : fw.open_ = some fw_open)
    (hclosed : priv.prop.fw_opened = false)
    (hname : priv.prop.fwname ≠ some "custom-easy")
    (hverify : verify_model_path_flag priv = true)
    (hfiles : priv.prop.model_files = some files)
    (hnum : priv.prop.num_models = files.length) (hpos : 0 < files.length)
    (hmissing : ∃ f ∈ files, env.g_file_test_is_regular f = false) :
    gst_tensor_filter_common_open_fw env priv = some priv := by
  have hmc : model_configured priv.prop = true := by
    rw [model_configured_iff]
    refine ⟨files, hfiles, ?_, by omega⟩
    intro h
    simp [h] at hpos
  have hall : files.all env.g_file_test_is_regular = false := by
    rcases hmissing with ⟨f, hf, hft⟩
    rw [List.all_eq_false]
    exact ⟨f, hf, by simp [hft]⟩
  have hv := verify_model_path_eq env priv files hname hverify hfiles hnum
  rw [hall] at hv
  unfold gst_tensor_filter_common_open_fw
  simp [hfw, hclosed, hcb, hmc, hv]

/-- Witness of C7: the backend `verify` with the model list `model.bin`, `missing.bin`. -/
theorem open_fw_verifies_model_paths_witness :
    gst_tensor_filter_common_open_fw sample_env0 priv_verify = some priv_verify :=
  open_fw_verifies_model_paths sample_env0 priv_verify sample_verify
    (fun _ _ => (0, some 1)) ["model.bin", "missing.bin"] rfl rfl rfl (by decide) rfl rfl rfl
    (by decide) ⟨"missing.bin", by decide, by decide⟩

/-- C7 fails as stated. A backend bound under the name `custom-easy`, and a backend
without an open callback, both declaring `verify_model_path`, are opened although their
only model path `missing.bin` is not a regular file; for `custom-easy` the open callback
is invoked. -/
theorem open_fw_skips_verification :
    (priv_custom_easy.map (fun p =>
        (p.fw.map (fun f => f.verify_model_path), p.prop.model_files,
          sample_env0.g_file_test_is_regular "missing.bin"))
      = some (some true, some ["missing.bin"], false)) ∧
    ((then_open sample_env0 priv_custom_easy).map (fun p =>
        (p.prop.fw_opened, p.trace.map Call.name)) = some (true, ["open"])) ∧
    (priv_no_open.map (fun p =>
        (p.fw.map (fun f => f.verify_model_path), p.prop.model_files))
      = some (some true, some ["missing.bin"])) ∧
    ((then_open sample_env0 priv_no_open).map (fun p => p.prop.fw_opened) = some true) := by
  refine ⟨?_, ?_, ?_, ?_⟩ <;> decide

/-- C8 (amended). Open requires a model: for every bound backend with an open callback
that does not declare `run_without_model`, `gst_tensor_filter_common_open_fw` returns the
instance unchanged when no model is configured, and whenever it changes the instance
(invokes the open callback or sets `fw_opened`) the model list is set and has at least one
entry with `num_models > 0`. Nothing is required of the contents of the first path. -/
theorem open_fw_requires_model (env : Env) (priv : GstTensorFilterPrivate)
    (fw : GstTensorFilterFramework)
    (fw_open : GstTensorFilterProperties → PrivateData → Int × PrivateData)
    (hfw : priv.fw = some fw) (hcb : fw.open_ = some fw_open)
    (hrun : run_without_model_flag priv fw = false) :
    (model_configured priv.prop = false →
      gst_tensor_filter_common_open_fw env priv = some priv) ∧
    (∀ priv', gst_tensor_filter_common_open_fw env priv = some priv' → priv' ≠ priv →
      ∃ files, priv.prop.model_files = some files ∧ files ≠ [] ∧ 0 < priv.prop.num_models) := by
  have h1 : model_configured priv.prop = false →
      gst_tensor_filter_common_open_fw env priv = some priv := by
    intro hmc
    unfold gst_tensor_filter_common_open_fw
    simp [hfw, hcb, hrun, hmc]
  refine ⟨h1, ?_⟩
  intro priv' hopen hne
  rw [← model_configured_iff]
  by_contra hmc
  have hmc' : model_configured priv.prop = false := by simpa using hmc
  rw [h1 hmc'] at hopen
  exact hne (Option.some.inj hopen).symm

/-- Witness of C8: the backend `sample-v0` bound with no model set is not opened. -/
theorem open_fw_requires_model_witness :
    gst_tensor_filter_common_open_fw sample_env0 (priv_v0_bound 0) = some (priv_v0_bound 0) :=
  (open_fw_requires_model sample_env0 (priv_v0_bound 0) (sample_v0 0)
    (fun _ _ => (0, some 1)) rfl rfl rfl).1 rfl

/-- C8 fails as stated. After `set(model, ",")` the first model path is the empty string,
yet a backend with an open callback that does not declare `run_without_model` is opened
and its open callback is invoked. -/
theorem open_fw_accepts_empty_first_path :
    (priv_empty_model.map (fun p =>
        (p.fw.map (fun f => (f.open_.isSome, f.run_without_model)),
          p.prop.model_files, p.prop.num_models))
      = some (some (true, false), some ["", ""], 2)) ∧
    ((then_open sample_env0 priv_empty_model).map (fun p =>
        (p.prop.fw_opened, p.trace.map Call.name)) = some (true, ["open"])) := by
  refine ⟨?_, ?_⟩ <;> decide

/-- C9. Open of a modern-ABI backend: when the open callback is reached and returns a
status >= 0, then (a) if the immediately following `getFrameworkInfo` returns 0 the
instance becomes open, and (b) if it returns non-zero the close callback is invoked right
after it and `fw_opened` remains FALSE (the binding is kept). -/
theorem open_fw_v1_requeries_info (env : Env) (priv : GstTensorFilterPrivate)
    (fw : GstTensorFilterFramework)
    (fw_open : GstTensorFilterProperties → PrivateData → Int × PrivateData)
    (getFrameworkInfo :
      GstTensorFilterProperties → PrivateData → Int × Option GstTensorFilterFrameworkInfo)
    (hfw : priv.fw = some fw) (hv1 : fw.version = 1)
    (hclosed : priv.prop.fw_opened = false)
    (hcb : fw.open_ = some fw_open) (hinfo : fw.getFrameworkInfo = some getFrameworkInfo)
    (hmodel : run_without_model_flag priv fw = true ∨ model_configured priv.prop = true)
    (hverify : verify_model_path env priv = some true)
    (hst : 0 ≤ (fw_open priv.prop priv.privateData).1) :
    ((getFrameworkInfo priv.prop (fw_open priv.prop priv.privateData).2).1 = 0 →
      ∃ priv', gst_tensor_filter_common_open_fw env priv = some priv' ∧
        priv'.prop.fw_opened = true ∧
        priv'.trace =
          Call.getFrameworkInfo priv.prop (fw_open priv.prop priv.privateData).2 0
          :: Call.open_ priv.prop (fw_open priv.prop priv.privateData).1 :: priv.trace) ∧
    ((getFrameworkInfo priv.prop (fw_open priv.prop priv.privateData).2).1 ≠ 0 →
      ∀ close, fw.close = some close →
      ∃ priv', gst_tensor_filter_common_open_fw env priv = some priv' ∧
        priv'.prop.fw_opened = false ∧ priv'.fw = some fw ∧
        priv'.trace =
          Call.close priv.prop
          :: Call.getFrameworkInfo priv.prop (fw_open priv.prop priv.privateData).2
              (getFrameworkInfo priv.prop (fw_open priv.prop priv.privateData).2).1
          :: Call.open_ priv.prop (fw_open priv.prop priv.privateData).1 :: priv.trace) := by
  have hcond : (!run_without_model_flag priv fw && !model_configured priv.prop) = false := by
    rcases hmodel with h | h <;> simp [h]
  have hV1 : GST_TF_FW_V1 (some fw) = true := by simp [GST_TF_FW_V1, hv1]
  constructor
  · intro hq
    unfold gst_tensor_filter_common_open_fw
    simp [hfw, hclosed, hcb, hcond, hverify, hst, hV1, hinfo, hq]
  · intro hq close hclose
    unfold gst_tensor_filter_common_open_fw
    simp [hfw, hclosed, hcb, hcond, hverify, hst, hV1, hinfo, hq, hclose]

/-- Witness of C9: `sample_v1` whose info query fails with -1 once the backend is open. -/
theorem open_fw_v1_requeries_info_witness :
    ∃ priv', gst_tensor_filter_common_open_fw sample_env0 (priv_v1_bound (-1) 0) = some priv' ∧
      priv'.prop.fw_opened = false ∧ priv'.fw = some (sample_v1 (-1) 0) ∧
      priv'.trace.map Call.name = ["close", "getFrameworkInfo", "open"] := by
  obtain ⟨priv', h1, h2, h3, h4⟩ :=
    (open_fw_v1_requeries_info sample_env0 (priv_v1_bound (-1) 0) (sample_v1 (-1) 0)
      (fun _ _ => (0, some 1))
      (fun _ pd => (if pd.isSome then -1 else 0, some sample_v1_info))
      rfl rfl rfl rfl rfl (Or.inr rfl) rfl (by decide)).2 (by decide) (fun _ _ => none) rfl
  exact ⟨priv', h1, h2, h3, by rw [h4]; rfl⟩

/-! ## Frame lemmas -/

theorem parse_accelerator_frame (p p' : GstTensorFilterPrivate)
    (a : Option String) (h : gst_tensor_filter_parse_accelerator p a = some p') :
    p'.prop = { p.prop with num_hw := p'.prop.num_hw, hw_list := p'.prop.hw_list } ∧
    p'.fw = p.fw ∧ p'.privateData = p.privateData ∧ p'.is_updatable = p.is_updatable ∧
    p'.silent = p.silent ∧ p'.configured = p.configured ∧
    ∃ l, p'.trace = l ++ p.trace ∧ ∀ c ∈ l, c.is_failed_reload = false := by
  unfold gst_tensor_filter_parse_accelerator at h
  simp only [] at h
  split at h
  · cases h
  · rename_i priv2 hf
    cases h
    split at hf
    · split at hf
      · cases hf
      · split at hf
        · cases hf
        · simp only [Option.some.injEq, Prod.mk.injEq] at hf
          obtain ⟨rfl, -⟩ := hf
          refine ⟨rfl, rfl, rfl, rfl, rfl, rfl, [_], rfl, ?_⟩
          simp [Call.is_failed_reload]
    · simp at hf
  · rename_i priv2 hf
    split at h
    · cases h
    · simp only [Option.some.injEq] at h
      subst h
      split at hf
      · split at hf
        · cases hf
        · split at hf
          · cases hf
          · simp only [Option.some.injEq, Prod.mk.injEq] at hf
            obtain ⟨rfl, -⟩ := hf
            refine ⟨rfl, rfl, rfl, rfl, rfl, rfl, [_], rfl, ?_⟩
            simp [Call.is_failed_reload]
      · simp only [Option.some.injEq, Prod.mk.injEq] at hf
        obtain ⟨rfl, -⟩ := hf
        exact ⟨rfl, rfl, rfl, rfl, rfl, rfl, [], rfl, by simp⟩

theorem close_fw_opened (p : GstTensorFilterPrivate) :
    (gst_tensor_filter_common_close_fw p).prop.fw_opened = false ∨
      gst_tensor_filter_common_close_fw p = p := by
  unfold gst_tensor_filter_common_close_fw
  rcases h : p.prop.fw_opened with _ | _
  · right; simp
  · left
    rcases hfw : p.fw with _ | fw
    · simp
    · rcases hc : fw.close with _ | c <;> simp

theorem close_fw_trace (p : GstTensorFilterPrivate) :
    ∃ l, (gst_tensor_filter_common_close_fw p).trace = l ++ p.trace ∧
      ∀ c ∈ l, c.is_failed_reload = false := by
  unfold gst_tensor_filter_common_close_fw
  rcases h : p.prop.fw_opened with _ | _
  · exact ⟨[], by simp⟩
  · rcases hfw : p.fw with _ | fw
    · exact ⟨[], by simp⟩
    · rcases hc : fw.close with _ | c
      · exact ⟨[], by simp [hc]⟩
      · exact ⟨[Call.close p.prop], by simp [hc, Call.is_failed_reload]⟩

theorem reload_model_frame (p p2 : GstTensorFilterPrivate)
    (old_prop : GstTensorFilterProperties) (status : Int)
    (h : reload_model p old_prop = some (p2, status)) :
    p2.prop = p.prop ∧ p2.fw = p.fw ∧ p2.is_updatable = p.is_updatable ∧
    p2.info = p.info ∧ p2.silent = p.silent ∧ p2.configured = p.configured ∧
    ∃ l, p2.trace = l ++ p.trace ∧
      (status = 0 → ∀ c ∈ l, c.is_failed_reload = false) := by
  unfold reload_model at h
  split at h
  · split at h
    · simp only [Option.some.injEq, Prod.mk.injEq] at h
      obtain ⟨rfl, rfl⟩ := h
      refine ⟨rfl, rfl, rfl, rfl, rfl, rfl, [_], rfl, ?_⟩
      intro hs c hc
      simp only [List.mem_singleton] at hc
      subst hc
      by_contra hne
      simp [Call.is_failed_reload] at hne
      simp [hne] at hs
    · simp only [Option.some.injEq, Prod.mk.injEq] at h
      obtain ⟨rfl, rfl⟩ := h
      exact ⟨rfl, rfl, rfl, rfl, rfl, rfl, [], rfl, by simp⟩
  · split at h
    · split at h
      · simp only [Option.some.injEq, Prod.mk.injEq] at h
        obtain ⟨rfl, rfl⟩ := h
        refine ⟨rfl, rfl, rfl, rfl, rfl, rfl, [_], rfl, ?_⟩
        intro hs c hc
        simp only [List.mem_singleton] at hc
        subst hc
        by_contra hne
        simp [Call.is_failed_reload] at hne
        simp [hne] at hs
      · cases h
    · simp only [Option.some.injEq, Prod.mk.injEq] at h
      obtain ⟨rfl, rfl⟩ := h
      exact ⟨rfl, rfl, rfl, rfl, rfl, rfl, [], rfl, by simp⟩

theorem case_frame_of_prop (p p' : GstTensorFilterPrivate) (hfw : p'.fw = p.fw)
    (ho : p'.prop.fw_opened = p.prop.fw_opened) (ht : p'.trace = p.trace) :
    case_frame p p' :=
  ⟨hfw, ho, [], by simp [ht], by simp⟩

theorem set_property_model_frame (p p' : GstTensorFilterPrivate) (value : Option GValue)
    (h : set_property_model p value = some p') : case_frame p p' := by
  unfold set_property_model at h
  split at h
  · cases h
    exact case_frame_of_prop _ _ rfl rfl rfl
  · rename_i m hm
    simp only [] at h
    split at h
    · rename_i hopen
      split at h
      · cases h
      · rename_i p2 status hr
        obtain ⟨hprop, hfw, -, -, -, -, l, hl, hnf⟩ := reload_model_frame _ _ _ _ hr
        split at h
        · rename_i hs
          cases h
          refine ⟨hfw, ?_, l, hl, ?_⟩
          · rw [hprop]; simp [gst_tensor_filter_parse_modelpaths_string]
          · rintro ⟨c, hc, hcf⟩
            rw [hnf hs c hc] at hcf
            cases hcf
        · cases h
          refine ⟨hfw, ?_, l, hl, ?_⟩
          · simp only [hprop]
            simp [gst_tensor_filter_parse_modelpaths_string]
          · intro _
            simp [same_reloadable, hprop, gst_tensor_filter_parse_modelpaths_string]
    · cases h
      exact case_frame_of_prop _ _ rfl
        (by simp [gst_tensor_filter_parse_modelpaths_string]) rfl

theorem set_property_custom_frame (p p' : GstTensorFilterPrivate) (value : Option GValue)
    (h : set_property_custom p value = some p') : case_frame p p' := by
  unfold set_property_custom at h
  split at h
  · rename_i hopen
    cases h
    exact case_frame_of_prop _ _ rfl rfl rfl
  · split at h
    · cases h
      exact case_frame_of_prop _ _ rfl rfl rfl
    · split at h
      · split at h
        · cases h
        · simp only [] at h
          split at h
          · rename_i hs
            cases h
            refine ⟨rfl, rfl, [_], rfl, ?_⟩
            rintro ⟨c, hc, hcf⟩
            simp only [List.mem_singleton] at hc
            subst hc
            simp [Call.is_failed_reload, hs] at hcf
          · cases h
            exact ⟨rfl, rfl, [_], rfl, fun _ => ⟨rfl, rfl, rfl, rfl, rfl⟩⟩
      · cases h
        exact case_frame_of_prop _ _ rfl rfl rfl

theorem set_property_is_updatable_frame (p p' : GstTensorFilterPrivate)
    (value : Option GValue) (h : set_property_is_updatable p value = some p') :
    case_frame p p' := by
  unfold set_property_is_updatable at h
  split at h
  · cases h
    exact case_frame_of_prop _ _ rfl rfl rfl
  · split at h
    · split at h
      · cases h
      · simp only [] at h
        split at h <;> cases h <;>
          exact ⟨rfl, rfl, [_], rfl, fun _ => ⟨rfl, rfl, rfl, rfl, rfl⟩⟩
    · cases h
      exact case_frame_of_prop _ _ rfl rfl rfl

theorem set_property_inputlayout_frame (env : Env) (p p' : GstTensorFilterPrivate)
    (value : Option GValue) (h : set_property_inputlayout env p value = some p') :
    case_frame p p' := by
  unfold set_property_inputlayout at h
  split at h
  · cases h
    exact case_frame_of_prop _ _ rfl rfl rfl
  · split at h
    · split at h
      · cases h
        exact case_frame_of_prop _ _ rfl rfl rfl
      · split at h
        · simp only [] at h
          split at h
          · cases h
          · split at h <;> cases h <;>
              exact ⟨rfl, rfl, [_], rfl, fun _ => ⟨rfl, rfl, rfl, rfl, rfl⟩⟩
        · cases h
          exact case_frame_of_prop _ _ rfl rfl rfl
    · cases h
      exact case_frame_of_prop _ _ rfl rfl rfl

theorem set_property_outputlayout_frame (env : Env) (p p' : GstTensorFilterPrivate)
    (value : Option GValue) (h : set_property_outputlayout env p value = some p') :
    case_frame p p' := by
  unfold set_property_outputlayout at h
  split at h
  · cases h
    exact case_frame_of_prop _ _ rfl rfl rfl
  · split at h
    · split at h
      · cases h
        exact case_frame_of_prop _ _ rfl rfl rfl
      · split at h
        · simp only [] at h
          split at h
          · cases h
          · split at h <;> cases h <;>
              exact ⟨rfl, rfl, [_], rfl, fun _ => ⟨rfl, rfl, rfl, rfl, rfl⟩⟩
        · cases h
          exact case_frame_of_prop _ _ rfl rfl rfl
    · cases h
      exact case_frame_of_prop _ _ rfl rfl rfl

theorem set_property_accelerator_frame (p p' : GstTensorFilterPrivate)
    (value : Option GValue) (h : set_property_accelerator p value = some p') :
    case_frame p p' := by
  unfold set_property_accelerator at h
  simp only [] at h
  split at h
  · split at h
    · cases h
      exact case_frame_of_prop _ _ rfl rfl rfl
    · split at h
      · split at h
        · cases h
        · rename_i p1 hpa
          obtain ⟨hprop, hfw, -, -, -, -, l, hl, hnf⟩ := parse_accelerator_frame _ _ _ hpa
          split at h
          · cases h
          · split at h
            · rename_i hs
              cases h
              refine ⟨hfw, ?_, _ :: l, by simp only [hl]; rfl, ?_⟩
              · rw [hprop]
              · rintro ⟨c, hc, hcf⟩
                simp only [List.mem_cons] at hc
                rcases hc with rfl | hc
                · simp [Call.is_failed_reload, hs] at hcf
                · rw [hnf c hc] at hcf
                  cases hcf
            · cases h
              refine ⟨hfw, ?_, _ :: l, by simp only [hl]; rfl, ?_⟩
              · simp only []
                rw [hprop]
              · intro _
                have hm : p1.prop.model_files = p.prop.model_files := by rw [hprop]
                have hn : p1.prop.num_models = p.prop.num_models := by rw [hprop]
                have hc : p1.prop.custom_properties = p.prop.custom_properties := by
                  rw [hprop]
                exact ⟨hm, hn, rfl, rfl, hc⟩
      · cases h
        exact case_frame_of_prop _ _ rfl rfl rfl
  · split at h
    · cases h
      exact case_frame_of_prop _ _ rfl rfl rfl
    · split at h
      · obtain ⟨hprop, hfw, -, -, -, -, l, hl, hnf⟩ := parse_accelerator_frame _ _ _ h
        refine ⟨hfw, by rw [hprop], l, hl, ?_⟩
        rintro ⟨c, hc, hcf⟩
        rw [hnf c hc] at hcf
        cases hcf
      · cases h
        exact case_frame_of_prop _ _ rfl rfl rfl

theorem close_fw_not_opened (p : GstTensorFilterPrivate) :
    (gst_tensor_filter_common_close_fw p).prop.fw_opened = false := by
  unfold gst_tensor_filter_common_close_fw
  rcases h : p.prop.fw_opened with _ | _
  · simp [h]
  · rcases hfw : p.fw with _ | fw
    · simp
    · rcases hc : fw.close with _ | c <;> simp

/-- The instance after the unbinding step of the framework setter. -/
theorem unbind_facts (p : GstTensorFilterPrivate) :
    (if p.fw.isSome = true then { gst_tensor_filter_common_close_fw p with fw := none }
      else p).fw = none ∧
    ((p.prop.fw_opened = true → p.fw.isSome = true) →
      (if p.fw.isSome = true then { gst_tensor_filter_common_close_fw p with fw := none }
        else p).prop.fw_opened = false) ∧
    ∃ l, (if p.fw.isSome = true then { gst_tensor_filter_common_close_fw p with fw := none }
        else p).trace = l ++ p.trace ∧ ∀ c ∈ l, c.is_failed_reload = false := by
  by_cases hfw : p.fw.isSome = true
  · rw [if_pos hfw]
    refine ⟨rfl, fun _ => close_fw_not_opened p, ?_⟩
    exact close_fw_trace p
  · rw [if_neg hfw]
    refine ⟨by simpa using hfw, ?_, [], by simp⟩
    intro hinv
    by_contra ho
    exact hfw (hinv (by simpa using ho))

theorem set_property_framework_frame (env : Env) (p p' : GstTensorFilterPrivate)
    (value : Option GValue) (h : set_property_framework env p value = some p') :
    ((p.prop.fw_opened = true → p.fw.isSome = true) →
      (p'.prop.fw_opened = true → p'.fw.isSome = true)) ∧
    (∃ l, p'.trace = l ++ p.trace ∧ ∀ c ∈ l, c.is_failed_reload = false) := by
  unfold set_property_framework at h
  simp only [] at h
  split at h
  · cases h
    exact ⟨id, [], by simp⟩
  · obtain ⟨hnone, hclosed, l1, hl1, hnf1⟩ := unbind_facts p
    generalize (if p.fw.isSome = true
      then { gst_tensor_filter_common_close_fw p with fw := none } else p) = p1 at *
    split at h
    · cases h
      refine ⟨fun hinv ho => ?_, l1, hl1, hnf1⟩
      rw [hclosed hinv] at ho
      cases ho
    · rename_i fw hfind
      split at h
      · cases h
      · rename_i p2 hq
        cases h
        split at hq
        · split at hq
          · cases hq
          · simp only [Option.some.injEq, Prod.mk.injEq] at hq
            obtain ⟨rfl, -⟩ := hq
            refine ⟨fun hinv ho => ?_, _ :: l1, by simp only [hl1]; rfl, ?_⟩
            · have := hclosed hinv
              simp only [] at ho
              rw [this] at ho
              cases ho
            · intro c hc
              simp only [List.mem_cons] at hc
              rcases hc with rfl | hc
              · simp [Call.is_failed_reload]
              · exact hnf1 c hc
        · simp at hq
      · rename_i p2 hq
        have hp2 : ∃ l2, p2.trace = l2 ++ p.trace ∧ ∀ c ∈ l2, c.is_failed_reload = false := by
          split at hq
          · split at hq
            · cases hq
            · simp only [Option.some.injEq, Prod.mk.injEq] at hq
              obtain ⟨rfl, -⟩ := hq
              refine ⟨_ :: l1, by simp only [hl1]; rfl, ?_⟩
              intro c hc
              simp only [List.mem_cons] at hc
              rcases hc with rfl | hc
              · simp [Call.is_failed_reload]
              · exact hnf1 c hc
          · simp only [Option.some.injEq, Prod.mk.injEq] at hq
            obtain ⟨rfl, -⟩ := hq
            exact ⟨l1, hl1, hnf1⟩
        obtain ⟨l2, hl2, hnf2⟩ := hp2
        split at h
        · split at h
          · obtain ⟨-, hfw, -, -, -, -, l, hl, hnf⟩ := parse_accelerator_frame _ _ _ h
            refine ⟨fun _ _ => by rw [hfw]; rfl, l ++ l2, by simp [hl, hl2], ?_⟩
            intro c hc
            rcases List.mem_append.mp hc with hc | hc
            · exact hnf c hc
            · exact hnf2 c hc
          · cases h
            exact ⟨fun _ _ => rfl, l2, hl2, hnf2⟩
        · cases h
          exact ⟨fun _ _ => rfl, l2, hl2, hnf2⟩

theorem set_property_case_frame (env : Env) (p p' : GstTensorFilterPrivate) (prop_id : Nat)
    (value : Option GValue) (hid : prop_id ≠ PROP_FRAMEWORK)
    (h : set_property_case env p prop_id value = some p') : case_frame p p' := by
  unfold set_property_case at h
  by_cases h0 : prop_id = PROP_SILENT
  · rw [if_pos h0] at h
    cases h; exact case_frame_of_prop _ _ rfl rfl rfl
  rw [if_neg h0] at h
  rw [if_neg hid] at h
  by_cases h2 : prop_id = PROP_MODEL
  · rw [if_pos h2] at h
    exact set_property_model_frame _ _ _ h
  rw [if_neg h2] at h
  by_cases h3 : prop_id = PROP_INPUT
  · rw [if_pos h3] at h
    cases h; exact case_frame_of_prop _ _ rfl rfl rfl
  rw [if_neg h3] at h
  by_cases h4 : prop_id = PROP_OUTPUT
  · rw [if_pos h4] at h
    cases h; exact case_frame_of_prop _ _ rfl rfl rfl
  rw [if_neg h4] at h
  by_cases h5 : prop_id = PROP_INPUTTYPE
  · rw [if_pos h5] at h
    cases h; exact case_frame_of_prop _ _ rfl rfl rfl
  rw [if_neg h5] at h
  by_cases h6 : prop_id = PROP_OUTPUTTYPE
  · rw [if_pos h6] at h
    cases h; exact case_frame_of_prop _ _ rfl rfl rfl
  rw [if_neg h6] at h
  by_cases h7 : prop_id = PROP_INPUTNAME
  · rw [if_pos h7] at h
    cases h; exact case_frame_of_prop _ _ rfl rfl rfl
  rw [if_neg h7] at h
  by_cases h8 : prop_id = PROP_OUTPUTNAME
  · rw [if_pos h8] at h
    cases h; exact case_frame_of_prop _ _ rfl rfl rfl
  rw [if_neg h8] at h
  by_cases h9 : prop_id = PROP_CUSTOM
  · rw [if_pos h9] at h
    exact set_property_custom_frame _ _ _ h
  rw [if_neg h9] at h
  by_cases h10 : prop_id = PROP_ACCELERATOR
  · rw [if_pos h10] at h
    exact set_property_accelerator_frame _ _ _ h
  rw [if_neg h10] at h
  by_cases h11 : prop_id = PROP_IS_UPDATABLE
  · rw [if_pos h11] at h
    exact set_property_is_updatable_frame _ _ _ h
  rw [if_neg h11] at h
  by_cases h12 : prop_id = PROP_INPUTLAYOUT
  · rw [if_pos h12] at h
    exact set_property_inputlayout_frame _ _ _ _ h
  rw [if_neg h12] at h
  by_cases h13 : prop_id = PROP_OUTPUTLAYOUT
  · rw [if_pos h13] at h
    exact set_property_outputlayout_frame _ _ _ _ h
  rw [if_neg h13] at h
  cases h; exact case_frame_of_prop _ _ rfl rfl rfl

theorem set_property_some (env : Env) (p p' : GstTensorFilterPrivate) (prop_id : Nat)
    (value : Option GValue) (ret : Bool)
    (h : gst_tensor_filter_common_set_property env p prop_id value = some (ret, p')) :
    (ret = false ∧ p' = p) ∨
      (ret = true ∧ set_property_case env p prop_id value = some p') := by
  unfold gst_tensor_filter_common_set_property at h
  split at h
  · right
    rcases hc : set_property_case env p prop_id value with _ | q
    · rw [hc] at h; cases h
    · rw [hc] at h
      simp only [Option.map_some', Option.some.injEq, Prod.mk.injEq] at h
      obtain ⟨rfl, rfl⟩ := h
      exact ⟨rfl, rfl⟩
  · left
    simp only [Option.some.injEq, Prod.mk.injEq] at h
    obtain ⟨rfl, rfl⟩ := h
    exact ⟨rfl, rfl⟩

theorem open_fw_binding (env : Env) (p p' : GstTensorFilterPrivate)
    (h : gst_tensor_filter_common_open_fw env p = some p') :
    p'.fw = p.fw ∧ (p.fw = none → p' = p) := by
  unfold gst_tensor_filter_common_open_fw at h
  split at h
  · rename_i hfw
    cases h
    exact ⟨rfl, fun _ => rfl⟩
  · rename_i fw hfw
    refine ⟨?_, fun hn => by rw [hn] at hfw; cases hfw⟩
    split at h
    · cases h; rfl
    split at h
    · cases h; exact hfw.symm ▸ rfl
    split at h
    · cases h; rfl
    split at h
    · cases h
    · cases h; rfl
    · simp only [] at h
      split at h
      · split at h
        · split at h
          · cases h
          · split at h
            · split at h
              · cases h
              · cases h; exact hfw.symm ▸ rfl
            · cases h; exact hfw.symm ▸ rfl
        · cases h; exact hfw.symm ▸ rfl
      · cases h; exact hfw.symm ▸ rfl

/-! ## State invariant (C6) -/

/-- C6. State invariant: in every state reachable from
`gst_tensor_filter_common_init_property` by any sequence of `set_property` (any property
id, any value), `open_fw` and `close_fw` calls, `fw_opened = TRUE` implies that the backend
reference `fw` is non-null. -/
theorem fw_opened_implies_bound (env : Env) (priv : GstTensorFilterPrivate)
    (hreach : Reachable env priv) (hopened : priv.prop.fw_opened = true) :
    priv.fw ≠ none := by
  have key : priv.prop.fw_opened = true → priv.fw.isSome = true := by
    clear hopened
    induction hreach with
    | init q =>
      intro ho
      simp [gst_tensor_filter_common_init_property, gst_tensor_filter_properties_init] at ho
    | set_property q q' prop_id value ret _ hset ih =>
      rcases set_property_some env q q' prop_id value ret hset with ⟨-, rfl⟩ | ⟨-, hcase⟩
      · exact ih
      · by_cases hid : prop_id = PROP_FRAMEWORK
        · subst hid
          have hc : set_property_framework env q value = some q' := by
            simpa [set_property_case, PROP_FRAMEWORK, PROP_SILENT] using hcase
          exact (set_property_framework_frame env q q' value hc).1 ih
        · obtain ⟨hfw, ho, -⟩ := set_property_case_frame env q q' prop_id value hid hcase
          rw [hfw, ho]
          exact ih
    | open_fw q q' _ hopen ih =>
      obtain ⟨hfw, hnone⟩ := open_fw_binding env q q' hopen
      rcases hq : q.fw with _ | fw
      · rw [hnone hq]
        exact ih
      · intro _
        rw [hfw, hq]
        rfl
    | close_fw q _ ih =>
      intro ho
      rw [close_fw_not_opened q] at ho
      cases ho
  intro hn
  have := key hopened
  rw [hn] at this
  cases this

/-- Witness of C6: a fresh instance, bound to the backend `no-open` and opened. -/
theorem fw_opened_implies_bound_witness :
    Reachable sample_env0 priv_no_open_opened ∧
      priv_no_open_opened.prop.fw_opened = true ∧ priv_no_open_opened.fw ≠ none :=
  have hr : Reachable sample_env0 priv_no_open_opened :=
    Reachable.open_fw priv_no_open_bound priv_no_open_opened
      (Reachable.set_property priv0 priv_no_open_bound PROP_FRAMEWORK
        (some (GValue.string (some "no-open"))) true (Reachable.init _) rfl)
      rfl
  ⟨hr, rfl, fw_opened_implies_bound sample_env0 priv_no_open_opened hr rfl⟩

/-! ## Hot-reload of the model list (C1, C2, C3) -/

/-- C1. Rollback on failed hot-reload: whenever a call of
`gst_tensor_filter_common_set_property` (any instance, in particular every open and
updatable one, any property id and value) makes a hot-reload callback that reports failure
(the legacy `reloadModel`, or the modern `eventHandler` for `RELOAD_MODEL`,
`SET_ACCELERATOR` or `CUSTOM_PROP`, with a non-zero status), then `model_files`,
`num_models`, `hw_list`, `num_hw` and `custom_properties` after the call equal their values
before the call. -/
theorem rollback_on_failed_reload (env : Env) (priv priv' : GstTensorFilterPrivate)
    (prop_id : Nat) (value : Option GValue) (ret : Bool)
    (hset : gst_tensor_filter_common_set_property env priv prop_id value = some (ret, priv'))
    (hfail : ∃ l, priv'.trace = l ++ priv.trace ∧ ∃ c ∈ l, c.is_failed_reload = true) :
    same_reloadable priv.prop priv'.prop := by
  rcases set_property_some env priv priv' prop_id value ret hset with ⟨-, rfl⟩ | ⟨-, hcase⟩
  · exact ⟨rfl, rfl, rfl, rfl, rfl⟩
  · obtain ⟨l, hl, c, hc, hcf⟩ := hfail
    by_cases hid : prop_id = PROP_FRAMEWORK
    · subst hid
      have hfr : set_property_framework env priv value = some priv' := by
        simpa [set_property_case, PROP_FRAMEWORK, PROP_SILENT] using hcase
      obtain ⟨l0, hl0, hnf⟩ := (set_property_framework_frame env priv priv' value hfr).2
      have hll : l = l0 := List.append_cancel_right (hl.symm.trans hl0)
      subst hll
      rw [hnf c hc] at hcf
      cases hcf
    · obtain ⟨-, -, l0, hl0, himp⟩ :=
        set_property_case_frame env priv priv' prop_id value hid hcase
      have hll : l = l0 := List.append_cancel_right (hl.symm.trans hl0)
      subst hll
      exact himp ⟨c, hc, hcf⟩

/-- Witness of C1: an open, updatable legacy backend whose `reloadModel` fails with -1;
after `set(model, "new.bin")` the model list is still `model.bin`. -/
theorem rollback_on_failed_reload_witness :
    (priv_v0_open (-1)).prop.fw_opened = true ∧ (priv_v0_open (-1)).is_updatable = true ∧
      priv_v0_failed_reload.prop.model_files = some ["model.bin"] ∧
      same_reloadable (priv_v0_open (-1)).prop priv_v0_failed_reload.prop :=
  ⟨rfl, rfl, rfl,
    rollback_on_failed_reload sample_env0 (priv_v0_open (-1)) priv_v0_failed_reload PROP_MODEL
      (some (GValue.string (some "new.bin"))) true rfl
      ⟨[Call.reloadModel
          { (priv_v0_open (-1)).prop with model_files := some ["new.bin"], num_models := 1 }
          (-1)], rfl, _, List.mem_singleton.mpr rfl, rfl⟩⟩

theorem set_property_model_eq (env : Env) (priv : GstTensorFilterPrivate)
    (value : Option GValue) :
    gst_tensor_filter_common_set_property env priv PROP_MODEL value =
      (set_property_model priv value).map (fun priv' => (true, priv')) := by
  simp [gst_tensor_filter_common_set_property, known_prop_id, set_property_case, PROP_MODEL,
    PROP_SILENT, PROP_FRAMEWORK, PROP_SUBPLUGINS]

theorem set_property_framework_eq (env : Env) (priv : GstTensorFilterPrivate)
    (value : Option GValue) :
    gst_tensor_filter_common_set_property env priv PROP_FRAMEWORK value =
      (set_property_framework env priv value).map (fun priv' => (true, priv')) := by
  simp [gst_tensor_filter_common_set_property, known_prop_id, set_property_case,
    PROP_SILENT, PROP_FRAMEWORK, PROP_SUBPLUGINS]

/-- C2 (amended). Argument of the model hot-reload callback on an open, updatable
instance: the modern ABI's `eventHandler` is called for `RELOAD_MODEL` with the pre-change
properties structure (the newly parsed list travels in the event data), while the legacy
ABI's `reloadModel` is called with the live properties structure, whose `model_files` and
`num_models` already hold the newly parsed list. -/
theorem model_reload_callback_argument (env : Env) (priv : GstTensorFilterPrivate)
    (fw : GstTensorFilterFramework) (m : String)
    (hfw : priv.fw = some fw) (hopen : priv.prop.fw_opened = true)
    (hupd : priv.is_updatable = true) :
    (fw.version = 1 → ∀ eventHandler, fw.eventHandler = some eventHandler →
      ∃ priv' status,
        gst_tensor_filter_common_set_property env priv PROP_MODEL
          (some (GValue.string (some m))) = some (true, priv') ∧
        priv'.trace =
          Call.eventHandler priv.prop event_ops.RELOAD_MODEL
            (some (GstTensorFilterFrameworkEventData.model (some (g_strsplit_set m ","))
              (g_strsplit_set m ",").length)) status :: priv.trace) ∧
    (fw.version = 0 → ∀ reloadModel, fw.reloadModel = some reloadModel →
      ∃ priv' status,
        gst_tensor_filter_common_set_property env priv PROP_MODEL
          (some (GValue.string (some m))) = some (true, priv') ∧
        priv'.trace =
          Call.reloadModel
            { priv.prop with
              model_files := some (g_strsplit_set m ",")
              num_models := (g_strsplit_set m ",").length } status :: priv.trace) := by
  constructor
  · intro hv eh heh
    have h0 : GST_TF_FW_V0 (some fw) = false := by simp [GST_TF_FW_V0, hv]
    have h1 : GST_TF_FW_V1 (some fw) = true := by simp [GST_TF_FW_V1, hv]
    rw [set_property_model_eq]
    simp only [set_property_model, g_value_get_string,
      gst_tensor_filter_parse_modelpaths_string, hopen, reload_model, h0, h1, hupd, hfw,
      heh, Option.bind, Bool.false_and, Bool.true_and, if_true, if_false]
    simp only [Bool.false_eq_true, if_false]
    split <;> exact ⟨_, _, rfl, rfl⟩
  · intro hv rm hrm
    have h0 : GST_TF_FW_V0 (some fw) = true := by simp [GST_TF_FW_V0, hv]
    rw [set_property_model_eq]
    simp only [set_property_model, g_value_get_string,
      gst_tensor_filter_parse_modelpaths_string, hopen, reload_model, h0, hupd, hfw,
      hrm, Option.bind, Bool.false_and, Bool.true_and, if_true, if_false]
    split <;> exact ⟨_, _, rfl, rfl⟩

/-- Witness of C2: the open, updatable sample backends of both ABIs. -/
theorem model_reload_callback_argument_witness :
    (∃ priv' status,
      gst_tensor_filter_common_set_property sample_env0 (priv_v1_open 0 0) PROP_MODEL
        (some (GValue.string (some "new.bin"))) = some (true, priv') ∧
      priv'.trace =
        Call.eventHandler (priv_v1_open 0 0).prop event_ops.RELOAD_MODEL
          (some (GstTensorFilterFrameworkEventData.model (some (g_strsplit_set "new.bin" ","))
            (g_strsplit_set "new.bin" ",").length)) status :: (priv_v1_open 0 0).trace) :=
  (model_reload_callback_argument sample_env0 (priv_v1_open 0 0) (sample_v1 0 0) "new.bin"
    rfl rfl rfl).1 rfl (fun _ _ _ _ => 0) rfl

/-- C2 fails as stated. After `set(framework, "sample-v0")`, `set(model, "model.bin")`,
`open_fw`, `set(is-updatable, true)` and `set(model, "new.bin")`, the legacy `reloadModel`
callback has been handed a properties structure whose `model_files` is the newly parsed
list `new.bin`, not the pre-change list `model.bin`. -/
theorem reload_model_receives_new_list :
    ((then_set_bool sample_env0 (priv_v0_running 0) PROP_IS_UPDATABLE true).map (fun p =>
        (p.prop.fw_opened, p.is_updatable, p.prop.model_files, p.prop.num_models))
      = some (true, true, some ["model.bin"], 1)) ∧
    ((then_set sample_env0 (then_set_bool sample_env0 (priv_v0_running 0) PROP_IS_UPDATABLE true)
        PROP_MODEL "new.bin").map (fun p =>
          p.trace.head?.map (fun c => (c.name, c.prop.model_files, c.prop.num_models)))
      = some (some ("reloadModel", some ["new.bin"], 1))) := by
  refine ⟨?_, ?_⟩ <;> decide

/-- C3 (amended). Model change after open without the updatable flag: when a legacy-ABI
backend (indeed any backend) is open and `is_updatable` is false, `set(model, s)` attempts
no reload (no callback is invoked) and replaces `model_files` and `num_models` by the list
parsed from `s`, for every string `s`. -/
theorem model_set_without_updatable (env : Env) (priv : GstTensorFilterPrivate) (m : String)
    (hopen : priv.prop.fw_opened = true) (hupd : priv.is_updatable = false) :
    gst_tensor_filter_common_set_property env priv PROP_MODEL
        (some (GValue.string (some m))) =
      some (true,
        { priv with
          prop := { priv.prop with
            model_files := some (g_strsplit_set m ",")
            num_models := (g_strsplit_set m ",").length } }) := by
  rw [set_property_model_eq]
  simp [set_property_model, g_value_get_string, gst_tensor_filter_parse_modelpaths_string,
    hopen, reload_model, hupd]

/-- Witness of C3: the open sample legacy backend with the updatable flag cleared. -/
theorem model_set_without_updatable_witness :
    gst_tensor_filter_common_set_property sample_env0
        { priv_v0_open 0 with is_updatable := false } PROP_MODEL
        (some (GValue.string (some "new.bin"))) =
      some (true,
        { priv_v0_open 0 with
          is_updatable := false
          prop := { (priv_v0_open 0).prop with
            model_files := some (g_strsplit_set "new.bin" ",")
            num_models := (g_strsplit_set "new.bin" ",").length } }) :=
  model_set_without_updatable sample_env0 { priv_v0_open 0 with is_updatable := false }
    "new.bin" rfl rfl

/-- C3 fails as stated. After `set(framework, "sample-v0")`, `set(model, "model.bin")` and
`open_fw`, with `is_updatable` false, `set(model, "new.bin")` is not rejected: the model
list becomes `new.bin`. -/
theorem model_set_after_open_not_rejected :
    ((priv_v0_running 0).map (fun p =>
        (GST_TF_FW_V0 p.fw, p.prop.fw_opened, p.is_updatable, p.prop.model_files,
          p.prop.num_models))
      = some (true, true, false, some ["model.bin"], 1)) ∧
    ((then_set sample_env0 (priv_v0_running 0) PROP_MODEL "new.bin").map (fun p =>
        (p.prop.model_files, p.prop.num_models)) = some (some ["new.bin"], 1)) := by
  exact ⟨rfl, rfl⟩

/-! ## Framework setter (C4, C5) -/

theorem g_strcmp0_eq_iff (a b : Option String) : g_strcmp0_eq a b = true ↔ a = b := by
  simp [g_strcmp0_eq]

theorem close_fw_trace_eq (p : GstTensorFilterPrivate) :
    (gst_tensor_filter_common_close_fw p).trace =
      (if p.prop.fw_opened = true ∧ (p.fw.bind (fun fw => fw.close)).isSome = true
        then Call.close p.prop :: p.trace else p.trace) := by
  unfold gst_tensor_filter_common_close_fw
  rcases ho : p.prop.fw_opened with _ | _
  · simp
  · rcases hfw : p.fw with _ | fw
    · simp
    · rcases hc : fw.close with _ | c <;> simp [hc]

/-- C4 (amended). Unknown framework: for every instance state with a backend bound (open
or not) and every name that `nnstreamer_filter_find` does not resolve, `set(framework,
name)` changes nothing when the name equals the bound name; for any other name the old
backend is unbound (`fw` becomes null and `fw_opened` FALSE) and, if the instance was
open, the old backend's close callback is invoked when present. -/
theorem set_framework_unknown (env : Env) (priv : GstTensorFilterPrivate)
    (name : Option String) (hbound : priv.fw ≠ none)
    (hfind : nnstreamer_filter_find env name = none) :
    (priv.prop.fwname = name →
      gst_tensor_filter_common_set_property env priv PROP_FRAMEWORK
        (some (GValue.string name)) = some (true, priv)) ∧
    (priv.prop.fwname ≠ name →
      ∃ priv', gst_tensor_filter_common_set_property env priv PROP_FRAMEWORK
          (some (GValue.string name)) = some (true, priv') ∧
        priv'.fw = none ∧ priv'.prop.fw_opened = false ∧
        priv'.trace =
          (if priv.prop.fw_opened = true ∧ (priv.fw.bind (fun fw => fw.close)).isSome = true
            then Call.close priv.prop :: priv.trace else priv.trace)) := by
  have hsome : priv.fw.isSome = true := by
    rcases h : priv.fw with _ | fw
    · exact absurd h hbound
    · rfl
  constructor
  · intro hname
    rw [set_property_framework_eq]
    have : g_strcmp0_eq priv.prop.fwname name = true := (g_strcmp0_eq_iff _ _).2 hname
    simp [set_property_framework, g_value_get_string, hsome, this]
  · intro hname
    rw [set_property_framework_eq]
    have hne : g_strcmp0_eq priv.prop.fwname name = false := by
      rcases h : g_strcmp0_eq priv.prop.fwname name with _ | _
      · rfl
      · exact absurd ((g_strcmp0_eq_iff _ _).1 h) hname
    refine ⟨{ gst_tensor_filter_common_close_fw priv with fw := none }, ?_, rfl,
      close_fw_not_opened priv, ?_⟩
    · simp [set_property_framework, g_value_get_string, hsome, hne, hfind]
    · exact close_fw_trace_eq priv

/-- Witness of C4: the open sample legacy backend and the unregistered name `unknown`. -/
theorem set_framework_unknown_witness :
    ∃ priv', gst_tensor_filter_common_set_property sample_env0 (priv_v0_open 0) PROP_FRAMEWORK
        (some (GValue.string (some "unknown"))) = some (true, priv') ∧
      priv'.fw = none ∧ priv'.prop.fw_opened = false ∧
      priv'.trace =
        (if (priv_v0_open 0).prop.fw_opened = true ∧
            ((priv_v0_open 0).fw.bind (fun fw => fw.close)).isSome = true
          then Call.close (priv_v0_open 0).prop :: (priv_v0_open 0).trace
          else (priv_v0_open 0).trace) :=
  (set_framework_unknown sample_env0 (priv_v0_open 0) (some "unknown") (by simp [priv_v0_open])
    rfl).2 (by decide)

/-- C4 fails as stated. The name `unknown` is not registered; setting it as framework on
an instance bound to `sample-v0` clears the backend reference, and on the opened instance
it also invokes the old backend's close callback and resets `fw_opened`. -/
theorem set_framework_unknown_unbinds :
    (nnstreamer_filter_find sample_env0 (some "unknown")).isSome = false ∧
    ((then_set sample_env0 (some priv0) PROP_FRAMEWORK "sample-v0").map (fun p =>
        p.fw.isSome) = some true) ∧
    ((then_set sample_env0 (then_set sample_env0 (some priv0) PROP_FRAMEWORK "sample-v0")
        PROP_FRAMEWORK "unknown").map (fun p => p.fw.isSome) = some false) ∧
    ((priv_v0_running 0).map (fun p => (p.fw.isSome, p.prop.fw_opened, p.trace.map Call.name))
      = some (true, true, ["open"])) ∧
    ((then_set sample_env0 (priv_v0_running 0) PROP_FRAMEWORK "unknown").map (fun p =>
        (p.fw.isSome, p.prop.fw_opened, p.trace.map Call.name))
      = some (false, false, ["close", "open"])) :=
  ⟨rfl, rfl, rfl, rfl, rfl⟩

/-- The three possible outcomes of a defined framework set: the requested name is bound;
nothing is bound because the name is not registered; nothing is bound because the info
query of the modern-ABI backend failed. -/
theorem set_property_framework_result (env : Env) (p p1 : GstTensorFilterPrivate)
    (value : Option GValue) (h : set_property_framework env p value = some p1) :
    (p1.fw.isSome = true ∧ p1.prop.fwname = g_value_get_string value) ∨
    (p1.fw = none ∧ nnstreamer_filter_find env (g_value_get_string value) = none) ∨
    (p1.fw = none ∧ ∃ fw g,
      nnstreamer_filter_find env (g_value_get_string value) = some fw ∧
      GST_TF_FW_V1 (some fw) = true ∧ fw.getFrameworkInfo = some g ∧
      (g p1.prop none).1 < 0 ∧ (g p1.prop none).2.getD p1.info = p1.info) := by
  unfold set_property_framework at h
  simp only [] at h
  split at h
  · rename_i hc
    cases h
    simp only [Bool.and_eq_true] at hc
    exact Or.inl ⟨hc.1, (g_strcmp0_eq_iff _ _).1 hc.2⟩
  · obtain ⟨hnone, -, -⟩ := unbind_facts p
    generalize (if p.fw.isSome = true
      then { gst_tensor_filter_common_close_fw p with fw := none } else p) = q at *
    split at h
    · rename_i hfind
      cases h
      exact Or.inr (Or.inl ⟨hnone, hfind⟩)
    · rename_i fw hfind
      split at h
      · cases h
      · rename_i p2 hq
        cases h
        split at hq
        · rename_i hv1
          split at hq
          · cases hq
          · rename_i g hg
            simp only [Option.some.injEq, Prod.mk.injEq, decide_eq_true_eq] at hq
            obtain ⟨rfl, hneg⟩ := hq
            refine Or.inr (Or.inr ⟨hnone, fw, g, hfind, hv1, hg, hneg, ?_⟩)
            show (g q.prop none).2.getD ((g q.prop none).2.getD q.info) = _
            rcases (g q.prop none).2 with _ | i <;> rfl
        · simp at hq
      · rename_i p2 hq
        have hp2 : p2.prop = q.prop := by
          split at hq
          · split at hq
            · cases hq
            · simp only [Option.some.injEq, Prod.mk.injEq] at hq
              obtain ⟨rfl, -⟩ := hq
              rfl
          · simp only [Option.some.injEq, Prod.mk.injEq] at hq
            obtain ⟨rfl, -⟩ := hq
            rfl
        left
        split at h
        · split at h
          · obtain ⟨hprop, hfw, -⟩ := parse_accelerator_frame _ _ _ h
            exact ⟨by rw [hfw]; rfl, by rw [hprop]⟩
          · cases h
            exact ⟨rfl, rfl⟩
        · cases h
          exact ⟨rfl, rfl⟩

/-- C5. Framework set is idempotent: for every instance state and every framework name,
when `set(framework, name)` is defined it returns TRUE, and a second `set(framework,
name)` with no intervening close is defined, returns TRUE and leaves the configuration
(`prop`), the backend reference `fw` and every other member as the first call left them;
when the name is bound after the first call, the second call invokes no backend
callback. -/
theorem set_framework_idempotent (env : Env) (priv priv1 : GstTensorFilterPrivate)
    (value : Option GValue) (ret1 : Bool)
    (h1 : gst_tensor_filter_common_set_property env priv PROP_FRAMEWORK value
      = some (ret1, priv1)) :
    ret1 = true ∧
    ∃ priv2, gst_tensor_filter_common_set_property env priv1 PROP_FRAMEWORK value
        = some (true, priv2) ∧
      priv2.prop = priv1.prop ∧ priv2.fw = priv1.fw ∧ priv2.info = priv1.info ∧
      priv2.privateData = priv1.privateData ∧ priv2.is_updatable = priv1.is_updatable ∧
      priv2.silent = priv1.silent ∧ priv2.configured = priv1.configured ∧
      (priv1.fw ≠ none → priv2.trace = priv1.trace) := by
  rw [set_property_framework_eq] at h1
  rcases hfr : set_property_framework env priv value with _ | q
  · rw [hfr] at h1; cases h1
  · rw [hfr] at h1
    simp only [Option.map_some', Option.some.injEq, Prod.mk.injEq] at h1
    obtain ⟨rfl, rfl⟩ := h1
    refine ⟨rfl, ?_⟩
    rw [set_property_framework_eq]
    rcases set_property_framework_result env priv q value hfr with
      ⟨hs, hn⟩ | ⟨hnone, hfind⟩ | ⟨hnone, fw, g, hfind, hv1, hg, hneg, hinfo⟩
    · refine ⟨q, ?_, rfl, rfl, rfl, rfl, rfl, rfl, rfl, fun _ => rfl⟩
      have : g_strcmp0_eq q.prop.fwname (g_value_get_string value) = true :=
        (g_strcmp0_eq_iff _ _).2 hn
      simp [set_property_framework, hs, this]
    · refine ⟨q, ?_, rfl, rfl, rfl, rfl, rfl, rfl, rfl, fun _ => rfl⟩
      simp [set_property_framework, hnone, hfind]
    · refine ⟨{ q with
          info := (g q.prop none).2.getD q.info
          trace := Call.getFrameworkInfo q.prop none (g q.prop none).1 :: q.trace },
        ?_, rfl, rfl, hinfo, rfl, rfl, rfl, rfl, fun hne => absurd hnone hne⟩
      simp [set_property_framework, hnone, hfind, hv1, hg, hneg]

/-- Witness of C5: binding the backend `no-open` on a fresh instance, twice. -/
theorem set_framework_idempotent_witness :
    ∃ priv2, gst_tensor_filter_common_set_property sample_env0 priv_no_open_bound
        PROP_FRAMEWORK (some (GValue.string (some "no-open"))) = some (true, priv2) ∧
      priv2.prop = priv_no_open_bound.prop ∧ priv2.fw = priv_no_open_bound.fw ∧
      priv2.info = priv_no_open_bound.info ∧
      priv2.privateData = priv_no_open_bound.privateData ∧
      priv2.is_updatable = priv_no_open_bound.is_updatable ∧
      priv2.silent = priv_no_open_bound.silent ∧
      priv2.configured = priv_no_open_bound.configured ∧
      (priv_no_open_bound.fw ≠ none → priv2.trace = priv_no_open_bound.trace) :=
  (set_framework_idempotent sample_env0 priv0 priv_no_open_bound
    (some (GValue.string (some "no-open"))) true rfl).2

/-! ## Freeze of tensor metadata and layouts (C11, C12) -/

theorem set_property_case_meta_frozen (env : Env) (priv : GstTensorFilterPrivate)
    (value : Option GValue) :
    (priv.prop.input_configured = true →
      ∀ prop_id ∈ [PROP_INPUT, PROP_INPUTTYPE, PROP_INPUTNAME],
        gst_tensor_filter_common_set_property env priv prop_id value = some (true, priv)) ∧
    (priv.prop.output_configured = true →
      ∀ prop_id ∈ [PROP_OUTPUT, PROP_OUTPUTTYPE, PROP_OUTPUTNAME],
        gst_tensor_filter_common_set_property env priv prop_id value = some (true, priv)) := by
  constructor
  · intro h prop_id hid
    simp only [List.mem_cons, List.mem_singleton, List.not_mem_nil, or_false] at hid
    have hm : ∀ parse, set_property_meta parse priv.prop.input_configured
        priv.prop.input_meta value = priv.prop.input_meta := by
      intro parse
      simp [set_property_meta, h]
    rcases hid with rfl | rfl | rfl <;>
      simp only [gst_tensor_filter_common_set_property, known_prop_id, set_property_case,
        hm, with_input_meta, PROP_SILENT, PROP_FRAMEWORK, PROP_MODEL,
        PROP_INPUT, PROP_OUTPUT, PROP_INPUTTYPE, PROP_OUTPUTTYPE, PROP_INPUTNAME,
        PROP_OUTPUTNAME, PROP_SUBPLUGINS] <;> rfl
  · intro h prop_id hid
    simp only [List.mem_cons, List.mem_singleton, List.not_mem_nil, or_false] at hid
    have hm : ∀ parse, set_property_meta parse priv.prop.output_configured
        priv.prop.output_meta value = priv.prop.output_meta := by
      intro parse
      simp [set_property_meta, h]
    rcases hid with rfl | rfl | rfl <;>
      simp only [gst_tensor_filter_common_set_property, known_prop_id, set_property_case,
        hm, with_output_meta, PROP_SILENT, PROP_FRAMEWORK, PROP_MODEL,
        PROP_INPUT, PROP_OUTPUT, PROP_INPUTTYPE, PROP_OUTPUTTYPE, PROP_INPUTNAME,
        PROP_OUTPUTNAME, PROP_SUBPLUGINS] <;> rfl

/-- C11. Freeze of tensor metadata: once `input_configured` (resp. `output_configured`) is
TRUE, every set of input / inputtype / inputname (resp. output / outputtype / outputname)
with any value is defined, returns the instance unchanged, so `input_meta` (resp.
`output_meta`), including `num_tensors`, is unchanged and the corresponding get returns
the same value before and after. -/
theorem metadata_frozen_once_configured (env : Env) (priv : GstTensorFilterPrivate)
    (value : Option GValue) :
    (priv.prop.input_configured = true →
      ∀ prop_id ∈ [PROP_INPUT, PROP_INPUTTYPE, PROP_INPUTNAME],
        ∃ priv', gst_tensor_filter_common_set_property env priv prop_id value
            = some (true, priv') ∧
          priv'.prop.input_meta = priv.prop.input_meta ∧
          priv'.prop.input_meta.num_tensors = priv.prop.input_meta.num_tensors ∧
          gst_tensor_filter_common_get_property env priv' prop_id =
            gst_tensor_filter_common_get_property env priv prop_id) ∧
    (priv.prop.output_configured = true →
      ∀ prop_id ∈ [PROP_OUTPUT, PROP_OUTPUTTYPE, PROP_OUTPUTNAME],
        ∃ priv', gst_tensor_filter_common_set_property env priv prop_id value
            = some (true, priv') ∧
          priv'.prop.output_meta = priv.prop.output_meta ∧
          priv'.prop.output_meta.num_tensors = priv.prop.output_meta.num_tensors ∧
          gst_tensor_filter_common_get_property env priv' prop_id =
            gst_tensor_filter_common_get_property env priv prop_id) := by
  obtain ⟨hin, hout⟩ := set_property_case_meta_frozen env priv value
  exact ⟨fun h prop_id hid => ⟨priv, hin h prop_id hid, rfl, rfl, rfl⟩,
    fun h prop_id hid => ⟨priv, hout h prop_id hid, rfl, rfl, rfl⟩⟩

/-- C12, evaluated at the failing input. On an instance bound to a legacy backend with
`input_configured` TRUE and `output_configured` FALSE, `set(inputlayout, "NCHW")` is not
rejected: the first layout entry changes from ANY to NCHW and `input_meta.num_tensors`
from 0 to 1. -/
theorem inputlayout_set_ignores_input_configured :
    (GST_TF_FW_V0 priv_input_configured.fw, priv_input_configured.prop.input_configured,
      priv_input_configured.prop.output_configured,
      priv_input_configured.prop.input_layout.head?,
      priv_input_configured.prop.input_meta.num_tensors)
      = (true, true, false, some tensor_layout._NNS_LAYOUT_ANY, 0) ∧
    (then_set sample_env0 (some priv_input_configured) PROP_INPUTLAYOUT "NCHW").map
        (fun p => (p.prop.input_layout.head?, p.prop.input_meta.num_tensors))
      = some (some tensor_layout._NNS_LAYOUT_NCHW, 1) :=
  ⟨rfl, rfl⟩

/-! ## Return value of the setter (C13) -/

/-- C13 (amended). The boolean returned by `gst_tensor_filter_common_set_property` tells
whether the property id has a case in the `switch`, not whether the mutation was accepted:
it is TRUE for every known id, also when the mutation is rejected, and FALSE for every
other id, in which case the instance is unchanged. -/
theorem set_property_return_value (env : Env) (priv priv' : GstTensorFilterPrivate)
    (prop_id : Nat) (value : Option GValue) (ret : Bool)
    (hset : gst_tensor_filter_common_set_property env priv prop_id value = some (ret, priv')) :
    ret = known_prop_id prop_id ∧ (ret = false → priv' = priv) := by
  unfold gst_tensor_filter_common_set_property at hset
  by_cases hk : known_prop_id prop_id = true
  · rw [if_pos hk] at hset
    rcases hc : set_property_case env priv prop_id value with _ | q
    · rw [hc] at hset; cases hset
    · rw [hc] at hset
      simp only [Option.map_some', Option.some.injEq, Prod.mk.injEq] at hset
      obtain ⟨rfl, rfl⟩ := hset
      exact ⟨hk.symm, fun h => by cases h⟩
  · rw [if_neg hk] at hset
    simp only [Option.some.injEq, Prod.mk.injEq] at hset
    obtain ⟨rfl, rfl⟩ := hset
    exact ⟨by simpa using hk, fun _ => rfl⟩

/-- Witness of C13: a custom change on the open sample legacy backend is rejected and
the call returns TRUE. -/
theorem set_property_return_value_witness :
    true = known_prop_id PROP_CUSTOM ∧ (true = false → priv_v0_open 0 = priv_v0_open 0) :=
  set_property_return_value sample_env0 (priv_v0_open 0) (priv_v0_open 0) PROP_CUSTOM
    (some (GValue.string (some "x"))) true rfl

/-- C13 fails as stated. On the open sample legacy backend `set(custom, "x")` is rejected
(`custom_properties` stays null) and on the same backend before open it is accepted
(`custom_properties` becomes `x`); both calls return TRUE. -/
theorem rejected_set_returns_true :
    ((gst_tensor_filter_common_set_property sample_env0 (priv_v0_open 0) PROP_CUSTOM
        (some (GValue.string (some "x")))).map (fun r => (r.1, r.2.prop.custom_properties))
      = some (true, none)) ∧
    ((gst_tensor_filter_common_set_property sample_env0 (priv_v0_bound 0) PROP_CUSTOM
        (some (GValue.string (some "x")))).map (fun r => (r.1, r.2.prop.custom_properties))
      = some (true, some "x")) :=
  ⟨rfl, rfl⟩

/-! ## Custom properties, accelerator string, updatable flag (C14, C15, C16, C17) -/

theorem set_property_custom_eq (env : Env) (priv : GstTensorFilterPrivate)
    (value : Option GValue) :
    gst_tensor_filter_common_set_property env priv PROP_CUSTOM value =
      (set_property_custom priv value).map (fun priv' => (true, priv')) := by
  simp [gst_tensor_filter_common_set_property, known_prop_id, set_property_case,
    PROP_SILENT, PROP_FRAMEWORK, PROP_MODEL, PROP_INPUT, PROP_OUTPUT, PROP_INPUTTYPE,
    PROP_OUTPUTTYPE, PROP_INPUTNAME, PROP_OUTPUTNAME, PROP_CUSTOM, PROP_SUBPLUGINS]

theorem set_property_is_updatable_eq (env : Env) (priv : GstTensorFilterPrivate)
    (value : Option GValue) :
    gst_tensor_filter_common_set_property env priv PROP_IS_UPDATABLE value =
      (set_property_is_updatable priv value).map (fun priv' => (true, priv')) := by
  simp [gst_tensor_filter_common_set_property, known_prop_id, set_property_case,
    PROP_SILENT, PROP_FRAMEWORK, PROP_MODEL, PROP_INPUT, PROP_OUTPUT, PROP_INPUTTYPE,
    PROP_OUTPUTTYPE, PROP_INPUTNAME, PROP_OUTPUTNAME, PROP_CUSTOM, PROP_SUBPLUGINS,
    PROP_ACCELERATOR, PROP_IS_UPDATABLE]

theorem get_property_custom_eq (env : Env) (priv : GstTensorFilterPrivate) :
    gst_tensor_filter_common_get_property env priv PROP_CUSTOM =
      some (true, some (GValue.string priv.prop.custom_properties)) := by
  simp [gst_tensor_filter_common_get_property, get_property_case,
    PROP_SILENT, PROP_FRAMEWORK, PROP_MODEL, PROP_INPUT, PROP_OUTPUT, PROP_INPUTTYPE,
    PROP_OUTPUTTYPE, PROP_INPUTNAME, PROP_OUTPUTNAME, PROP_CUSTOM]

/-- C14. Custom properties set, for a string value `v` (possibly null): (a) if the backend
is not open, `set(custom, v)` stores `v` and `get(custom)` then returns `v`; (b) if a
legacy-ABI backend is open, the instance is unchanged and no callback is invoked; (c) if a
modern-ABI backend is open, the event handler is called once with `CUSTOM_PROP` carrying
`v`, and `custom_properties` becomes `v` when it returns 0 and keeps its value
otherwise. -/
theorem set_custom_spec (env : Env) (priv : GstTensorFilterPrivate) (v : Option String) :
    (priv.prop.fw_opened = false →
      ∃ priv', gst_tensor_filter_common_set_property env priv PROP_CUSTOM
          (some (GValue.string v)) = some (true, priv') ∧
        priv'.prop.custom_properties = v ∧ priv'.trace = priv.trace ∧
        gst_tensor_filter_common_get_property env priv' PROP_CUSTOM =
          some (true, some (GValue.string v))) ∧
    (priv.prop.fw_opened = true → GST_TF_FW_V0 priv.fw = true →
      gst_tensor_filter_common_set_property env priv PROP_CUSTOM (some (GValue.string v))
        = some (true, priv)) ∧
    (priv.prop.fw_opened = true → GST_TF_FW_V1 priv.fw = true →
      ∀ eventHandler, priv.fw.bind (fun fw => fw.eventHandler) = some eventHandler →
      ∃ priv', gst_tensor_filter_common_set_property env priv PROP_CUSTOM
          (some (GValue.string v)) = some (true, priv') ∧
        priv'.trace =
          Call.eventHandler priv.prop event_ops.CUSTOM_PROP
            (some (GstTensorFilterFrameworkEventData.custom v))
            (eventHandler priv.prop priv.privateData event_ops.CUSTOM_PROP
              (some (GstTensorFilterFrameworkEventData.custom v))) :: priv.trace ∧
        (eventHandler priv.prop priv.privateData event_ops.CUSTOM_PROP
            (some (GstTensorFilterFrameworkEventData.custom v)) = 0 →
          priv'.prop.custom_properties = v) ∧
        (eventHandler priv.prop priv.privateData event_ops.CUSTOM_PROP
            (some (GstTensorFilterFrameworkEventData.custom v)) ≠ 0 →
          priv'.prop.custom_properties = priv.prop.custom_properties)) := by
  refine ⟨?_, ?_, ?_⟩
  · intro ho
    refine ⟨{ priv with prop := { priv.prop with custom_properties := v } }, ?_, rfl, rfl, ?_⟩
    · rw [set_property_custom_eq]
      simp [set_property_custom, ho, g_value_dup_string, g_value_get_string]
    · rw [get_property_custom_eq]
  · intro ho h0
    rw [set_property_custom_eq]
    simp [set_property_custom, ho, h0]
  · intro ho h1 eh heh
    have h0 : GST_TF_FW_V0 priv.fw = false := by
      unfold GST_TF_FW_V1 at h1
      unfold GST_TF_FW_V0
      rcases hfw : priv.fw with _ | fw
      · rfl
      · rw [hfw] at h1
        simp only [beq_iff_eq] at h1
        simp [h1]
    rw [set_property_custom_eq]
    simp only [set_property_custom, ho, h0, h1, heh, g_value_dup_string, g_value_get_string,
      Bool.not_true, Bool.false_eq_true, if_false, if_true]
    split
    · rename_i hs
      exact ⟨_, rfl, rfl, fun _ => rfl, fun hne => absurd hs hne⟩
    · rename_i hs
      exact ⟨_, rfl, rfl, fun h => absurd h hs, fun _ => rfl⟩

/-- C17. Updatable flag, for a boolean value `v`: `set(is-updatable, v)` leaves
`is_updatable` unchanged if the bound backend is legacy-ABI without a `reloadModel`
callback, or modern-ABI whose event handler answers the `RELOAD_MODEL` probe (null data)
with `-ENOENT`; `is_updatable` becomes `v` for a modern-ABI backend with any other answer,
for a legacy-ABI backend with a `reloadModel` callback, when no backend is bound, and for
a backend of any other ABI version. -/
theorem set_is_updatable_spec (env : Env) (priv : GstTensorFilterPrivate) (v : Bool) :
    (GST_TF_FW_V0 priv.fw = true → priv.fw.bind (fun fw => fw.reloadModel) = none →
      gst_tensor_filter_common_set_property env priv PROP_IS_UPDATABLE
        (some (GValue.boolean v)) = some (true, priv)) ∧
    (GST_TF_FW_V1 priv.fw = true →
      ∀ eventHandler, priv.fw.bind (fun fw => fw.eventHandler) = some eventHandler →
      ∃ priv', gst_tensor_filter_common_set_property env priv PROP_IS_UPDATABLE
          (some (GValue.boolean v)) = some (true, priv') ∧
        (eventHandler priv.prop priv.privateData event_ops.RELOAD_MODEL none = -ENOENT →
          priv'.is_updatable = priv.is_updatable) ∧
        (eventHandler priv.prop priv.privateData event_ops.RELOAD_MODEL none ≠ -ENOENT →
          priv'.is_updatable = v)) ∧
    (GST_TF_FW_V1 priv.fw = false →
      (GST_TF_FW_V0 priv.fw = true → (priv.fw.bind (fun fw => fw.reloadModel)).isSome = true) →
      gst_tensor_filter_common_set_property env priv PROP_IS_UPDATABLE
        (some (GValue.boolean v)) = some (true, { priv with is_updatable := v })) := by
  refine ⟨?_, ?_, ?_⟩
  · intro h0 hr
    rw [set_property_is_updatable_eq]
    simp [set_property_is_updatable, h0, hr]
  · intro h1 eh heh
    have h0 : GST_TF_FW_V0 priv.fw = false := by
      unfold GST_TF_FW_V1 at h1
      unfold GST_TF_FW_V0
      rcases hfw : priv.fw with _ | fw
      · rfl
      · rw [hfw] at h1
        simp only [beq_iff_eq] at h1
        simp [h1]
    rw [set_property_is_updatable_eq]
    simp only [set_property_is_updatable, h0, h1, heh, g_value_get_boolean,
      Bool.false_and, Bool.false_eq_true, if_false, if_true]
    split
    · rename_i hs
      exact ⟨_, rfl, fun _ => rfl, fun hne => absurd hs hne⟩
    · rename_i hs
      exact ⟨_, rfl, fun h => absurd h hs, fun _ => rfl⟩
  · intro h1 hr
    rw [set_property_is_updatable_eq]
    rcases h0 : GST_TF_FW_V0 priv.fw with _ | _
    · simp [set_property_is_updatable, h0, h1, g_value_get_boolean]
    · have hsome := hr h0
      rcases hb : priv.fw.bind (fun fw => fw.reloadModel) with _ | rm
      · rw [hb] at hsome
        cases hsome
      · simp only [set_property_is_updatable, h0, h1, hb, g_value_get_boolean,
          Option.isNone_some, Bool.and_false, Bool.false_eq_true, if_false, Option.map_some']

/-- C15, evaluated at the failing input. On a fresh instance with no backend bound,
`set(accelerator, "true:gpu")` stores nothing, so `get(accelerator)` returns the empty
string; with the legacy backend `sample-v0` bound the same set is stored and returned
verbatim. -/
theorem accelerator_string_dropped_when_unbound :
    (priv0.fw.isNone, priv0.prop.fw_opened) = (true, false) ∧
    (then_set sample_env0 (some priv0) PROP_ACCELERATOR "true:gpu").map
        (fun p => p.prop.accl_str) = some none ∧
    then_get sample_env0 (then_set sample_env0 (some priv0) PROP_ACCELERATOR "true:gpu")
        PROP_ACCELERATOR = some (true, some (GValue.string (some ""))) ∧
    then_get sample_env0
        (then_set sample_env0 (some (priv_v0_bound 0)) PROP_ACCELERATOR "true:gpu")
        PROP_ACCELERATOR = some (true, some (GValue.string (some "true:gpu"))) :=
  ⟨rfl, rfl, rfl, rfl⟩

/-- C16, evaluated at the failing input. After `set(framework, "sample-v1")` and
`set(accelerator, "true:(cpu,gpu)")` the resolved list is CPU, GPU, and `get(accelerator)`
returns the two canonical names run together, `cpugpu`, with no separator. -/
theorem accelerator_get_has_no_separator :
    priv_v1_accelerated.map (fun p => (GST_TF_FW_V1 p.fw, p.prop.hw_list, p.prop.num_hw))
      = some (true, some [accl_hw.ACCL_CPU, accl_hw.ACCL_GPU], 2) ∧
    then_get sample_env0 priv_v1_accelerated PROP_ACCELERATOR
      = some (true, some (GValue.string (some "cpugpu"))) := by
  refine ⟨?_, ?_⟩ <;> decide

/-! ## Accelerator resolver (C18, C20) -/

/-- C18. Absent preference resolves to DEFAULT: for every supported-accelerator list `S`
(the empty list included) `parse_accl_hw_all (NULL, S)` is the single-element list
`[ACCL_DEFAULT]` and `parse_accl_hw (NULL, S)` is `ACCL_DEFAULT`. -/
theorem parse_accl_hw_absent (S : List String) :
    parse_accl_hw_all none S = [accl_hw.ACCL_DEFAULT] ∧
      parse_accl_hw none S = accl_hw.ACCL_DEFAULT :=
  ⟨rfl, rfl⟩

/-- C20, evaluated at the failing input. With the supported list GPU, CPU, NPU written
in upper case, the preference `true:(GPU,CPU)` resolves to ACCL_NONE, ACCL_NONE: the
caseless patterns match the upper-case words, but `get_accl_hw_type` looks them up by exact
name. Written in the canonical lower case the same preference resolves to GPU, CPU in the
order written, for two different orders of the supported list. The result does depend on
the order of the supported list when one name is the beginning of another:
`true:(npu.movidius,gpu)` resolves to NPU, GPU when `npu` is listed before
`npu.movidius`, and to NPU_MOVIDIUS, GPU when it is listed after. -/
theorem parse_accl_hw_all_upper_case :
    parse_accl_hw_all (some "true:(GPU,CPU)") ["GPU", "CPU", "NPU"]
      = [accl_hw.ACCL_NONE, accl_hw.ACCL_NONE] ∧
    parse_accl_hw_all (some "true:(gpu,cpu)") ["gpu", "cpu", "npu"]
      = [accl_hw.ACCL_GPU, accl_hw.ACCL_CPU] ∧
    parse_accl_hw_all (some "true:(gpu,cpu)") ["npu", "cpu", "gpu"]
      = [accl_hw.ACCL_GPU, accl_hw.ACCL_CPU] ∧
    parse_accl_hw_all (some "true:(npu.movidius,gpu)") ["npu", "npu.movidius", "gpu"]
      = [accl_hw.ACCL_NPU, accl_hw.ACCL_GPU] ∧
    parse_accl_hw_all (some "true:(npu.movidius,gpu)") ["npu.movidius", "npu", "gpu"]
      = [accl_hw.ACCL_NPU_MOVIDIUS, accl_hw.ACCL_GPU] := by
  refine ⟨?_, ?_, ?_, ?_, ?_⟩ <;> decide

/-! ## The patterns built by `create_regex` (C19) -/

theorem splitChars_ne_nil (delims cs : List Char) : splitChars delims cs ≠ [] := by
  induction cs with
  | nil => simp [splitChars]
  | cons c cs ih =>
    unfold splitChars
    split
    · simp
    · split <;> simp

theorem intercalate_go_data (sep : String) (l : List String) (acc : String) :
    (String.intercalate.go acc sep l).data =
      acc.data ++ l.flatMap (fun a => sep.data ++ a.data) := by
  induction l generalizing acc with
  | nil => simp [String.intercalate.go]
  | cons a l ih =>
    simp [String.intercalate.go, ih, String.data_append, List.flatMap_cons, List.append_assoc]

theorem join_split_dots (cs : List Char) :
    ∀ t ts, splitChars ['.'] cs = t :: ts →
      t ++ ts.flatMap (fun a => '\\' :: '.' :: a) = escape_dots cs := by
  induction cs with
  | nil =>
    intro t ts h
    simp [splitChars] at h
    obtain ⟨rfl, rfl⟩ := h
    simp [escape_dots]
  | cons c cs ih =>
    intro t ts h
    rcases hs : splitChars ['.'] cs with _ | ⟨u, us⟩
    · exact absurd hs (splitChars_ne_nil _ _)
    · have hrec := ih u us hs
      unfold splitChars at h
      by_cases hc : c = '.'
      · subst hc
        rw [hs] at h
        simp at h
        obtain ⟨rfl, rfl⟩ := h
        simp [escape_dots, List.flatMap_cons, hrec]
      · rw [hs] at h
        simp [hc] at h
        obtain ⟨rfl, rfl⟩ := h
        simp [escape_dots, hc, hrec]

theorem escape_join_split (r : String) (h : r.data ≠ []) :
    (g_strjoinv "\\." (g_strsplit_set r ".")).data = escape_dots r.data := by
  unfold g_strjoinv g_strsplit_set
  rw [if_neg h]
  rcases hs : splitChars ".".data r.data with _ | ⟨t, ts⟩
  · exact absurd hs (splitChars_ne_nil _ _)
  · have := join_split_dots r.data t ts hs
    simp only [List.map_cons, String.intercalate, intercalate_go_data]
    rw [← this]
    simp [List.flatMap_map]

theorem escape_dots_append (a b : List Char) :
    escape_dots (a ++ b) = escape_dots a ++ escape_dots b := by
  induction a with
  | nil => rfl
  | cons c cs ih =>
    by_cases hc : c = '.' <;> simp [escape_dots, hc, ih]

theorem escape_dots_names (V : List String) :
    escape_dots (V.flatMap (fun it => '|' :: it.data)) =
      V.flatMap (fun it => '|' :: escape_dots it.data) := by
  induction V with
  | nil => rfl
  | cons v V ih =>
    rw [List.flatMap_cons, List.flatMap_cons, escape_dots_append, ih]
    rfl

theorem foldl_names_data (u : RegexUtils) (V : List String) (init : String) :
    (V.foldl (fun acc it => acc ++ u.delimiter ++ u.pre ++ it ++ u.suf) init).data =
      init.data ++ V.flatMap (fun it =>
        u.delimiter.data ++ u.pre.data ++ it.data ++ u.suf.data) := by
  induction V generalizing init with
  | nil => simp
  | cons v V ih =>
    simp only [List.foldl_cons, ih, String.data_append, List.flatMap_cons, List.append_assoc]

theorem create_regex_cons (first : String) (rest : List String) (u : RegexUtils) :
    create_regex (first :: rest) u =
      some (g_strjoinv "\\." (g_strsplit_set
        (((visited_names (first :: rest)).tail.foldl
            (fun acc it => acc ++ u.delimiter ++ u.pre ++ it ++ u.suf)
            (u.start ++ u.pre ++ first ++ u.suf)) ++ u.stop) ".")) := by
  cases rest <;> rfl

theorem create_regex_enable_data (first : String) (rest : List String) :
    ∃ p, create_regex (first :: rest) regex_accl_utils = some p ∧
      p.data = regex_accl_utils.start.data ++ (escape_dots first.data ++
        ((visited_names (first :: rest)).tail.flatMap (fun it => '|' :: escape_dots it.data) ++
          regex_accl_utils.stop.data)) := by
  refine ⟨_, create_regex_cons first rest regex_accl_utils, ?_⟩
  have hdata : ∀ V : List String,
      ((V.foldl (fun acc it => acc ++ regex_accl_utils.delimiter ++ regex_accl_utils.pre
          ++ it ++ regex_accl_utils.suf)
        (regex_accl_utils.start ++ regex_accl_utils.pre ++ first ++ regex_accl_utils.suf))
        ++ regex_accl_utils.stop).data =
      regex_accl_utils.start.data ++ (first.data ++
        (V.flatMap (fun it => '|' :: it.data) ++ regex_accl_utils.stop.data)) := by
    intro V
    rw [String.data_append, foldl_names_data, String.data_append, String.data_append,
      String.data_append]
    have hpre : regex_accl_utils.pre.data = [] := rfl
    have hsuf : regex_accl_utils.suf.data = [] := rfl
    have hdel : regex_accl_utils.delimiter.data = ['|'] := rfl
    rw [hpre, hsuf, hdel]
    simp only [List.append_nil, List.append_assoc, List.singleton_append]
  rw [escape_join_split, hdata, escape_dots_append, escape_dots_append, escape_dots_append,
    escape_dots_names]
  · have h1 : escape_dots regex_accl_utils.start.data = regex_accl_utils.start.data := by
      decide
    have h2 : escape_dots regex_accl_utils.stop.data = regex_accl_utils.stop.data := by
      decide
    rw [h1, h2]
  · rw [hdata]
    intro h
    have hlen := congrArg List.length h
    rw [List.length_append] at hlen
    have hpos : 0 < regex_accl_utils.start.data.length := by decide
    simp only [List.length_nil] at hlen
    omega

theorem parse_chars_append (σ : ParseState) (a b : List Char) :
    parse_chars σ (a ++ b) = (parse_chars σ a).bind (fun σ' => parse_chars σ' b) := by
  unfold parse_chars
  rw [List.foldlM_append]
  rfl

theorem parse_chars_cons (σ : ParseState) (c : Char) (cs : List Char) :
    parse_chars σ (c :: cs) = (parse_step σ c).bind (fun σ' => parse_chars σ' cs) := by
  unfold parse_chars
  rw [List.foldlM_cons]
  rfl

theorem parse_step_plain (f : Frame) (rest : List Frame) (c : Char)
    (hc : regex_metachars.contains c = false) (hdot : c ≠ '.') :
    parse_step ⟨f, rest, ParseMode.normal⟩ c =
      some ⟨⟨f.kind, f.alts, f.cur ++ [Regex.char c]⟩, rest, ParseMode.normal⟩ := by
  simp only [regex_metachars, List.contains_cons, List.contains_nil, Bool.or_false,
    Bool.or_eq_false_iff, beq_eq_false_iff_ne, ne_eq] at hc
  obtain ⟨h1, h2, h3, h4, h5, h6, h7, h8, h9, h10, h11, h12, h13⟩ := hc
  simp [parse_step, push_atom, unsupported_chars, h1, h2, h3, h4, h5, h6, h7, h8, h9, h10,
    h11, h12, h13, hdot]

theorem parse_chars_name (cs : List Char)
    (hp : cs.all (fun c => !regex_metachars.contains c) = true) (kind : FrameKind)
    (alts cur : List Regex) (rest : List Frame) :
    parse_chars ⟨⟨kind, alts, cur⟩, rest, ParseMode.normal⟩ (escape_dots cs) =
      some ⟨⟨kind, alts, cur ++ cs.map Regex.char⟩, rest, ParseMode.normal⟩ := by
  induction cs generalizing cur with
  | nil => simp [escape_dots, parse_chars]
  | cons c cs ih =>
    simp only [List.all_cons, Bool.and_eq_true, Bool.not_eq_true'] at hp
    obtain ⟨hc, hcs⟩ := hp
    by_cases hdot : c = '.'
    · subst hdot
      have hstep1 : parse_step ⟨⟨kind, alts, cur⟩, rest, ParseMode.normal⟩ '\\' =
          some ⟨⟨kind, alts, cur⟩, rest, ParseMode.escape⟩ := by
        simp [parse_step]
      have hstep2 : parse_step ⟨⟨kind, alts, cur⟩, rest, ParseMode.escape⟩ '.' =
          some ⟨⟨kind, alts, cur ++ [Regex.char '.']⟩, rest, ParseMode.normal⟩ := by
        have : Char.isAlphanum '.' = false := by decide
        simp [parse_step, push_atom, this]
      simp only [escape_dots, if_true, parse_chars_cons, hstep1, hstep2, Option.some_bind]
      rw [ih hcs]
      simp
    · simp only [escape_dots, if_neg hdot, parse_chars_cons]
      rw [parse_step_plain _ _ _ hc hdot]
      simp only [Option.some_bind]
      rw [ih hcs]
      simp

theorem parse_chars_names (V : List String) (hV : ∀ n ∈ V, plain_name n = true)
    (kind : FrameKind) (rest : List Frame) :
    ∀ alts cur : List Regex,
    ∃ f, parse_chars ⟨⟨kind, alts, cur⟩, rest, ParseMode.normal⟩
          (V.flatMap (fun it => '|' :: escape_dots it.data)) =
        some ⟨f, rest, ParseMode.normal⟩ ∧
      f.kind = kind ∧ f.alts ++ [seq_of f.cur] = alts ++ seq_of cur :: V.map name_regex := by
  induction V with
  | nil =>
    intro alts cur
    exact ⟨_, rfl, rfl, by simp⟩
  | cons v V ih =>
    intro alts cur
    have hv : plain_name v = true := hV v (List.mem_cons_self _ _)
    have hstep : parse_step ⟨⟨kind, alts, cur⟩, rest, ParseMode.normal⟩ '|' =
        some ⟨⟨kind, alts ++ [seq_of cur], []⟩, rest, ParseMode.normal⟩ := by
      simp [parse_step]
    obtain ⟨f, hf, hk, hfa⟩ := ih (fun n hn => hV n (List.mem_cons_of_mem _ hn))
      (alts ++ [seq_of cur]) ([] ++ v.data.map Regex.char)
    refine ⟨f, ?_, hk, ?_⟩
    · rw [List.flatMap_cons, List.cons_append, parse_chars_cons, hstep, Option.some_bind,
        parse_chars_append, parse_chars_name _ hv, Option.some_bind, hf]
    · rw [hfa]
      simp [name_regex]

theorem mem_tail_visited (first : String) (rest : List String) (n : String)
    (h : n ∈ (visited_names (first :: rest)).tail) : n ∈ rest := by
  rcases rest with _ | ⟨second, rest⟩
  · simp [visited_names] at h
  · simp only [visited_names, List.tail_cons, List.mem_cons] at h
    rcases h with rfl | rfl | h
    · exact List.mem_cons_self _ _
    · exact List.mem_cons_self _ _
    · exact List.mem_cons_of_mem _ h

/-- The reader state after the fixed head of the enable pattern. -/
theorem parse_chars_enable_start :
    parse_chars parse_init regex_accl_utils.start.data =
      some ⟨⟨FrameKind.group, [], []⟩,
        [⟨FrameKind.group, [], [Regex.opt (Regex.cls ['('])]⟩,
         ⟨FrameKind.group, [],
           [Regex.bol,
            Regex.group (Regex.cat (Regex.char 't') (Regex.cat (Regex.char 'r')
              (Regex.cat (Regex.char 'u') (Regex.char 'e')))),
            Regex.opt (Regex.cls [':'])]⟩,
         ⟨FrameKind.top, [], []⟩],
        ParseMode.normal⟩ := by
  decide

/-- The enable pattern of a list of plain names compiles to `enable_regex` over the
alternation of the visited names. -/
theorem g_regex_new_enable (first : String) (rest : List String)
    (hplain : ∀ n ∈ first :: rest, plain_name n = true) :
    g_regex_new (create_regex (first :: rest) regex_accl_utils) =
      some (enable_regex (alt_of ((visited_names (first :: rest)).map name_regex))) := by
  obtain ⟨p, hp, hdata⟩ := create_regex_enable_data first rest
  rw [hp]
  unfold g_regex_new
  simp only []
  rw [hdata, parse_chars_append, parse_chars_enable_start, Option.some_bind,
    parse_chars_append, parse_chars_name _ (hplain first (List.mem_cons_self _ _)),
    Option.some_bind, parse_chars_append]
  obtain ⟨f, hf, hk, hfa⟩ := parse_chars_names (visited_names (first :: rest)).tail
    (fun n hn => hplain n (List.mem_cons_of_mem _ (mem_tail_visited first rest n hn)))
    FrameKind.group
    [⟨FrameKind.group, [], [Regex.opt (Regex.cls ['('])]⟩,
     ⟨FrameKind.group, [],
       [Regex.bol,
        Regex.group (Regex.cat (Regex.char 't') (Regex.cat (Regex.char 'r')
          (Regex.cat (Regex.char 'u') (Regex.char 'e')))),
        Regex.opt (Regex.cls [':'])]⟩,
     ⟨FrameKind.top, [], []⟩]
    [] ([] ++ first.data.map Regex.char)
  rw [hf, Option.some_bind]
  obtain ⟨k, a, c⟩ := f
  simp only [] at hk hfa
  subst hk
  have hnames : (visited_names (first :: rest)).map name_regex = a ++ [seq_of c] := by
    rw [hfa]
    rcases rest with _ | ⟨second, rest⟩ <;> simp [visited_names, name_regex]
  rw [hnames]
  rfl

theorem search_enable_false (names : Regex) :
    search (enable_regex names) [] "false".data = none := by
  rfl

/-- Counterexample to C19 as stated: a supported name with parentheses and a bar is put
into the patterns as it is. The enable pattern becomes
`(^(true)[:]?([(]?(x))|((false)*[)]?))`, whose second alternative matches `false`; the
element pattern `((?<!!)x))|((false)?` has an unmatched parenthesis and does not compile,
no word is fetched, and the result is `[ACCL_AUTO]`. -/
theorem parse_accl_hw_all_false_metachars :
    create_regex ["x))|((false"] regex_accl_utils
      = some "(^(true)[:]?([(]?(x))|((false)*[)]?))"
    ∧ g_regex_match_simple (create_regex ["x))|((false"] regex_accl_utils) "false" = true
    ∧ create_regex ["x))|((false"] regex_accl_elem_utils = some "((?<!!)x))|((false)?"
    ∧ g_regex_new (create_regex ["x))|((false"] regex_accl_elem_utils) = none
    ∧ parse_accl_hw_all (some "false") ["x))|((false"] = [accl_hw.ACCL_AUTO] := by
  decide

/-- C19 (amended). Disabled preference resolves to NONE: for every supported-accelerator
list `S` of plain names (no pattern metacharacter other than the dot), the empty list
included, `parse_accl_hw_all ("false", S)` is exactly `[ACCL_NONE]`. For the empty list no
pattern is built and the match fails; otherwise the enable pattern demands `true` at the
start of the string. -/
theorem parse_accl_hw_all_false (S : List String)
    (hplain : ∀ n ∈ S, plain_name n = true) :
    parse_accl_hw_all (some "false") S = [accl_hw.ACCL_NONE] := by
  have hm : g_regex_match_simple (create_regex S regex_accl_utils) "false" = false := by
    rcases S with _ | ⟨first, rest⟩
    · rfl
    · unfold g_regex_match_simple
      rw [g_regex_new_enable first rest hplain]
      simp only []
      rw [search_enable_false]
      rfl
  simp [parse_accl_hw_all, hm]

/-- Witness of C19 (amended): the supported list `gpu`, `cpu.neon`, `npu`. -/
theorem parse_accl_hw_all_false_witness :
    parse_accl_hw_all (some "false") ["gpu", "cpu.neon", "npu"] = [accl_hw.ACCL_NONE] :=
  parse_accl_hw_all_false ["gpu", "cpu.neon", "npu"] (by decide)

/-- The empty supported list: no pattern can be built and `false` resolves to NONE. -/
theorem parse_accl_hw_all_false_empty :
    create_regex [] regex_accl_utils = none ∧
      parse_accl_hw_all (some "false") [] = [accl_hw.ACCL_NONE] :=
  ⟨rfl, rfl⟩

/-! ## Resolver: negation, defaults, unknown words (C21 to C25) -/

/-- C21 (code evaluated at the example of the claim): the negated word is left out, but the
kept word `GPU` is fetched in the case it was written in and the exact lookup of
`get_accl_hw_type` does not know it, so the result is `[ACCL_NONE]`, not `[ACCL_GPU]`; in
lower case the negated name is excluded and the other one is kept. -/
theorem parse_accl_hw_all_negated_upper_case :
    parse_accl_hw_all (some "true:(!CPU,GPU)") ["GPU", "CPU"] = [accl_hw.ACCL_NONE]
    ∧ g_regex_match_words (create_regex ["GPU", "CPU"] regex_accl_elem_utils)
        "true:(!CPU,GPU)" = ["GPU"]
    ∧ get_accl_hw_type "GPU" = accl_hw.ACCL_NONE
    ∧ parse_accl_hw_all (some "true:(!cpu,gpu)") ["gpu", "cpu"] = [accl_hw.ACCL_GPU] := by
  decide


/-- C22. Enabled without a concrete element resolves to AUTO: for every supported list `S`
and every preference string on which the enable matcher succeeds and from which the element
matcher fetches no word, `parse_accl_hw_all` returns exactly `[ACCL_AUTO]`. -/
theorem parse_accl_hw_all_auto (S : List String) (p : String)
    (henable : g_regex_match_simple (create_regex S regex_accl_utils) p = true)
    (hnone : g_regex_match_words (create_regex S regex_accl_elem_utils) p = []) :
    parse_accl_hw_all (some p) S = [accl_hw.ACCL_AUTO] := by
  simp [parse_accl_hw_all, henable, hnone]

/-- Witness of C22: `true` alone, a list made only of a negated name, and a list made only
of an unsupported name. -/
theorem parse_accl_hw_all_auto_witness :
    parse_accl_hw_all (some "true") ["GPU"] = [accl_hw.ACCL_AUTO]
    ∧ parse_accl_hw_all (some "true:(!gpu)") ["gpu"] = [accl_hw.ACCL_AUTO]
    ∧ parse_accl_hw_all (some "true:(cpu)") ["gpu", "npu"] = [accl_hw.ACCL_AUTO] :=
  ⟨parse_accl_hw_all_auto ["GPU"] "true" (by decide) (by decide),
   parse_accl_hw_all_auto ["gpu"] "true:(!gpu)" (by decide) (by decide),
   parse_accl_hw_all_auto ["gpu", "npu"] "true:(cpu)" (by decide) (by decide)⟩

/-- Counterexample to C23 as stated: a name written twice is resolved twice. -/
theorem parse_accl_hw_all_keeps_duplicates :
    parse_accl_hw_all (some "true:(gpu,gpu)") ["gpu", "cpu"]
        = [accl_hw.ACCL_GPU, accl_hw.ACCL_GPU]
    ∧ ¬ (parse_accl_hw_all (some "true:(gpu,gpu)") ["gpu", "cpu"]).Nodup := by
  decide

theorem parse_accl_hw_all_length (a : Option String) (S : List String) :
    1 ≤ (parse_accl_hw_all a S).length := by
  unfold parse_accl_hw_all
  rcases a with _ | a
  · simp
  · simp only []
    split
    · split
      · simp
      · omega
    · simp

/-- C23 (amended). The resolved list is never empty, and it is not de-duplicated: for
every preference string and supported list `parse_accl_hw_all` returns a list of length at
least one; when the enable matcher succeeds and the element matcher fetches words, the list
is the fetched words mapped by `get_accl_hw_type`, in order and with repetitions. A defined
call of `gst_tensor_filter_parse_accelerator` either stores nothing (`hw_list` null and
`num_hw = 0`) or stores in `hw_list` exactly the list that `parse_accl_hw_all` returns for
the names of the accelerators in the backend's info, with `num_hw >= 1` its length. -/
theorem resolved_list_nonempty (a : Option String) (S : List String)
    (priv priv1 : GstTensorFilterPrivate)
    (hdef : gst_tensor_filter_parse_accelerator priv a = some priv1) :
    1 ≤ (parse_accl_hw_all a S).length
    ∧ (∀ p, a = some p →
        g_regex_match_simple (create_regex S regex_accl_utils) p = true →
        g_regex_match_words (create_regex S regex_accl_elem_utils) p ≠ [] →
        parse_accl_hw_all a S
          = (g_regex_match_words (create_regex S regex_accl_elem_utils) p).map
              get_accl_hw_type)
    ∧ ((priv1.prop.hw_list = none ∧ priv1.prop.num_hw = 0)
      ∨ ∃ accl_support, info_accl_support priv1.info = some accl_support
          ∧ priv1.prop.hw_list = some (parse_accl_hw_all a accl_support)
          ∧ priv1.prop.num_hw = (parse_accl_hw_all a accl_support).length
          ∧ 1 ≤ priv1.prop.num_hw) := by
  refine ⟨parse_accl_hw_all_length a S, ?_, ?_⟩
  · intro p hp henable hwords
    subst hp
    simp [parse_accl_hw_all, henable, hwords]
  unfold gst_tensor_filter_parse_accelerator at hdef
  simp only [] at hdef
  split at hdef
  · exact absurd hdef (by simp)
  · rename_i priv2 hf
    cases hdef
    left
    split at hf
    · split at hf
      · exact absurd hf (by simp)
      · split at hf
        · exact absurd hf (by simp)
        · simp only [Option.some.injEq, Prod.mk.injEq] at hf
          rw [← hf.1]
          exact ⟨rfl, rfl⟩
    · simp at hf
  · rename_i priv2 hf
    split at hdef
    · exact absurd hdef (by simp)
    · rename_i accl_support hs
      cases hdef
      right
      exact ⟨accl_support, hs, rfl, rfl, parse_accl_hw_all_length _ _⟩

/-- Witness of C23 (amended): the modern-ABI sample instance and a name written twice;
both occurrences are fetched and both are stored. -/
theorem resolved_list_nonempty_witness :
    gst_tensor_filter_parse_accelerator (priv_v1_bound 0 0) (some "true:(gpu,gpu)")
      = some priv_v1_gpu_twice
    ∧ g_regex_match_words (create_regex ["cpu", "gpu"] regex_accl_elem_utils)
        "true:(gpu,gpu)" = ["gpu", "gpu"]
    ∧ priv_v1_gpu_twice.prop.hw_list
        = some (parse_accl_hw_all (some "true:(gpu,gpu)") ["cpu", "gpu"])
    ∧ 1 ≤ (parse_accl_hw_all (some "true:(gpu,gpu)") ["cpu", "gpu"]).length
    ∧ (∀ p, some "true:(gpu,gpu)" = some p →
        g_regex_match_simple (create_regex ["cpu", "gpu"] regex_accl_utils) p = true →
        g_regex_match_words (create_regex ["cpu", "gpu"] regex_accl_elem_utils) p ≠ [] →
        parse_accl_hw_all (some "true:(gpu,gpu)") ["cpu", "gpu"]
          = (g_regex_match_words (create_regex ["cpu", "gpu"] regex_accl_elem_utils) p).map
              get_accl_hw_type)
    ∧ ((priv_v1_gpu_twice.prop.hw_list = none ∧ priv_v1_gpu_twice.prop.num_hw = 0)
      ∨ ∃ accl_support, info_accl_support priv_v1_gpu_twice.info = some accl_support
          ∧ priv_v1_gpu_twice.prop.hw_list
              = some (parse_accl_hw_all (some "true:(gpu,gpu)") accl_support)
          ∧ priv_v1_gpu_twice.prop.num_hw
              = (parse_accl_hw_all (some "true:(gpu,gpu)") accl_support).length
          ∧ 1 ≤ priv_v1_gpu_twice.prop.num_hw) :=
  ⟨rfl, by decide, by decide,
    resolved_list_nonempty (some "true:(gpu,gpu)") ["cpu", "gpu"] (priv_v1_bound 0 0)
      priv_v1_gpu_twice rfl⟩

/-- Counterexample to C24 as stated: the word `foo`, fetched by the element matcher and
not the name of any accelerator, contributes the element `ACCL_NONE`. -/
theorem unknown_word_not_skipped :
    g_regex_match_words (create_regex ["foo", "gpu"] regex_accl_elem_utils)
        "true:(foo,gpu)" = ["foo", "gpu"]
    ∧ is_canonical_name "foo" = false
    ∧ parse_accl_hw_all (some "true:(foo,gpu)") ["foo", "gpu"]
        = [accl_hw.ACCL_NONE, accl_hw.ACCL_GPU] := by
  decide

theorem get_accl_hw_type_unknown (word : String) (h : is_canonical_name word = false) :
    get_accl_hw_type word = accl_hw.ACCL_NONE := by
  unfold get_accl_hw_type
  have hn : accl_hw_values.find? (fun a => get_accl_hw_str a == word) = none := by
    rw [List.find?_eq_none]
    intro a ha hw
    have : is_canonical_name word = true := by
      unfold is_canonical_name
      rw [List.any_eq_true]
      exact ⟨a, ha, hw⟩
    rw [h] at this
    exact absurd this (by decide)
  rw [hn]

/-- C24 (amended). An unknown word is not skipped: when the enable matcher succeeds and the
element matcher fetches at least one word, the resolved list has exactly one element per
fetched word, in order, namely `get_accl_hw_type` of the word, and this is `ACCL_NONE` for
every word that is not the canonical name of an accelerator. -/
theorem parse_accl_hw_all_maps_words (S : List String) (p : String)
    (henable : g_regex_match_simple (create_regex S regex_accl_utils) p = true)
    (hwords : g_regex_match_words (create_regex S regex_accl_elem_utils) p ≠ []) :
    parse_accl_hw_all (some p) S
        = (g_regex_match_words (create_regex S regex_accl_elem_utils) p).map get_accl_hw_type
    ∧ (parse_accl_hw_all (some p) S).length
        = (g_regex_match_words (create_regex S regex_accl_elem_utils) p).length
    ∧ ∀ word, is_canonical_name word = false → get_accl_hw_type word = accl_hw.ACCL_NONE := by
  have h : parse_accl_hw_all (some p) S
      = (g_regex_match_words (create_regex S regex_accl_elem_utils) p).map get_accl_hw_type := by
    simp [parse_accl_hw_all, henable, hwords]
  refine ⟨h, ?_, get_accl_hw_type_unknown⟩
  rw [h, List.length_map]

/-- Witness of C24 (amended): the unknown word `foo` between two known ones. -/
theorem parse_accl_hw_all_maps_words_witness :
    parse_accl_hw_all (some "true:(cpu,foo,gpu)") ["foo", "gpu", "cpu"]
        = (g_regex_match_words (create_regex ["foo", "gpu", "cpu"] regex_accl_elem_utils)
            "true:(cpu,foo,gpu)").map get_accl_hw_type
    ∧ (parse_accl_hw_all (some "true:(cpu,foo,gpu)") ["foo", "gpu", "cpu"]).length
        = (g_regex_match_words (create_regex ["foo", "gpu", "cpu"] regex_accl_elem_utils)
            "true:(cpu,foo,gpu)").length
    ∧ ∀ word, is_canonical_name word = false → get_accl_hw_type word = accl_hw.ACCL_NONE :=
  parse_accl_hw_all_maps_words ["foo", "gpu", "cpu"] "true:(cpu,foo,gpu)" (by decide)
    (by decide)


/-- C25 (code evaluated at two strings that differ only in letter case): the results
differ. -/
theorem parse_accl_hw_all_case_sensitive :
    parse_accl_hw_all (some "true:gpu") ["gpu"] = [accl_hw.ACCL_GPU]
    ∧ parse_accl_hw_all (some "true:GPU") ["gpu"] = [accl_hw.ACCL_NONE]
    ∧ parse_accl_hw_all (some "TRUE:gpu") ["gpu"] = [accl_hw.ACCL_GPU]
    ∧ parse_accl_hw_all (some "true:Gpu") ["gpu", "cpu"] = [accl_hw.ACCL_NONE] := by
  decide


/-! ## Validation of descriptors (C26, C27) -/

/-- C26. Validation of a legacy (V0) descriptor: `nnstreamer_filter_validate` returns TRUE
if and only if `name` is non-null, `invoke_NN` is non-null, and either both
`getInputDimension` and `getOutputDimension` are non-null or `setInputDimension` is
non-null; a descriptor whose ABI version is neither V0 nor V1 is always rejected. -/
theorem validate_v0 (env : Env) (tfsp : GstTensorFilterFramework) :
    (GST_TF_FW_V0 (some tfsp) = true →
      (nnstreamer_filter_validate env tfsp = true ↔
        tfsp.name ≠ none ∧ tfsp.invoke_NN = true ∧
          ((tfsp.getInputDimension = true ∧ tfsp.getOutputDimension = true)
            ∨ tfsp.setInputDimension = true)))
    ∧ (GST_TF_FW_V0 (some tfsp) = false → GST_TF_FW_V1 (some tfsp) = false →
        nnstreamer_filter_validate env tfsp = false) := by
  constructor
  · intro hv
    unfold nnstreamer_filter_validate
    rw [if_pos hv]
    rcases hn : tfsp.name with _ | n <;> cases hi : tfsp.invoke_NN <;>
      cases hgi : tfsp.getInputDimension <;> cases hgo : tfsp.getOutputDimension <;>
      cases hs : tfsp.setInputDimension <;> simp
  · intro h0 h1
    unfold nnstreamer_filter_validate
    simp [h0, h1]

/-- Instances of C26: the legacy sample is accepted, the same descriptor without a name is
rejected, and a descriptor of version 2 is rejected. -/
theorem validate_v0_witness :
    nnstreamer_filter_validate sample_env0 (sample_v0 0) = true
    ∧ nnstreamer_filter_validate sample_env0 sample_v0_unnamed = false
    ∧ nnstreamer_filter_validate sample_env0 sample_v2 = false :=
  ⟨((validate_v0 sample_env0 (sample_v0 0)).1 rfl).2 (by decide),
   by
    have h := (validate_v0 sample_env0 sample_v0_unnamed).1 rfl
    rcases hb : nnstreamer_filter_validate sample_env0 sample_v0_unnamed with _ | _
    · rfl
    · exact absurd (h.1 hb).1 (by decide),
   (validate_v0 sample_env0 sample_v2).2 rfl rfl⟩

/-- Counterexample to C27 as stated: the info query of `sample_v1_empty_name` succeeds and
yields the empty string as name, and the descriptor is accepted and registered. -/
theorem validate_accepts_empty_name :
    (sample_v1_empty_name.getFrameworkInfo.map
        (fun g => (g (gst_tensor_filter_properties_init sample_env0.uninitialised_prop)
          none).2.map (fun info => info.name))) = some (some (some ""))
    ∧ nnstreamer_filter_validate sample_env0 sample_v1_empty_name = true
    ∧ nnstreamer_filter_probe sample_env0 [] sample_v1_empty_name
        = some (true, [("", sample_v1_empty_name)]) := by
  refine ⟨rfl, rfl, rfl⟩

theorem v1_not_v0 (tfsp : GstTensorFilterFramework) (h : GST_TF_FW_V1 (some tfsp) = true) :
    GST_TF_FW_V0 (some tfsp) = false := by
  simp only [GST_TF_FW_V1, beq_iff_eq] at h
  simp [GST_TF_FW_V0, h]

/-- C27 (amended). Validation of a modern (V1) descriptor: `nnstreamer_filter_validate`
returns TRUE if and only if `invoke`, `getFrameworkInfo`, `getModelInfo` and `eventHandler`
are all present and the probe call `getFrameworkInfo (&prop, NULL, &info)` on freshly
initialised properties returns 0 and leaves a non-null name (the empty string included);
`nnstreamer_filter_probe` returns FALSE and leaves the registry as it was for a descriptor
that fails validation. -/
theorem validate_v1 (env : Env) (tfsp : GstTensorFilterFramework)
    (contents : List (String × GstTensorFilterFramework)) :
    (GST_TF_FW_V1 (some tfsp) = true →
      (nnstreamer_filter_validate env tfsp = true ↔
        tfsp.invoke = true ∧ tfsp.getModelInfo = true ∧ tfsp.eventHandler.isSome = true ∧
          ∃ g, tfsp.getFrameworkInfo = some g ∧
            (g (gst_tensor_filter_properties_init env.uninitialised_prop) none).1 = 0 ∧
            (((g (gst_tensor_filter_properties_init env.uninitialised_prop) none).2.getD
              env.uninitialised_info).name ≠ none)))
    ∧ (nnstreamer_filter_validate env tfsp = false →
        nnstreamer_filter_probe env contents tfsp = some (false, contents)) := by
  constructor
  · intro hv
    unfold nnstreamer_filter_validate
    rw [if_neg (by rw [v1_not_v0 tfsp hv]; decide), if_pos hv]
    rcases hg : tfsp.getFrameworkInfo with _ | g <;> cases hi : tfsp.invoke <;>
      cases hm : tfsp.getModelInfo <;> rcases he : tfsp.eventHandler with _ | e <;> simp
  · intro hf
    unfold nnstreamer_filter_probe
    simp [hf]

/-- Instances of C27 (amended) at the modern sample, whose query yields the name
`sample-v1`, at a descriptor without `getModelInfo`, and at a failing query. -/
theorem validate_v1_witness :
    nnstreamer_filter_validate sample_env0 (sample_v1 0 0) = true
    ∧ nnstreamer_filter_probe sample_env0 [] { sample_v1 0 0 with getModelInfo := false }
        = some (false, []) :=
  ⟨((validate_v1 sample_env0 (sample_v1 0 0) []).1 rfl).2
      ⟨rfl, rfl, rfl, _, rfl, rfl, by decide⟩,
   (validate_v1 sample_env0 { sample_v1 0 0 with getModelInfo := false } []).2 rfl⟩

/-! ## The enable matcher, prefix names, layout strings (C28 to C30) -/

theorem opt_run_isSome (r : Regex) (k : Subject → Option Subject) (z : Subject)
    (h : (k z).isSome = true) : ((Regex.opt r).run k z).isSome = true := by
  simp only [Regex.run]
  split
  · rfl
  · exact h

theorem star_loop_isSome (step : (Subject → Option Subject) → Subject → Option Subject)
    (k : Subject → Option Subject) (n : Nat) (z : Subject)
    (h : (k z).isSome = true) : (star_loop step k n z).isSome = true := by
  cases n with
  | zero => simpa [star_loop] using h
  | succ n =>
    simp only [star_loop]
    split
    · rfl
    · exact h

/-- The part of the enable pattern after `true` accepts the empty string: whatever the
alternation of names is, it succeeds wherever its continuation does. -/
theorem enable_tail_isSome (names : Regex) (k : Subject → Option Subject) (z : Subject)
    (h : (k z).isSome = true) :
    ((Regex.cat (Regex.opt (Regex.cls [':']))
        (Regex.group
          (Regex.cat (Regex.opt (Regex.cls ['(']))
            (Regex.cat (Regex.star (Regex.group names))
              (Regex.opt (Regex.cls [')'])))))).run k z).isSome = true := by
  simp only [Regex.run.eq_6]
  apply opt_run_isSome
  simp only [Regex.run.eq_10, Regex.run.eq_6]
  apply opt_run_isSome
  simp only [Regex.run.eq_9]
  apply star_loop_isSome
  exact opt_run_isSome _ _ _ h

theorem match_here_enable_not_start (names : Regex) (x : Char) (before after : List Char) :
    match_here (enable_regex names) { before := x :: before, after := after } = none := by
  simp [match_here, enable_regex, Regex.run]

theorem search_enable_not_start (names : Regex) (after : List Char) :
    ∀ (x : Char) (before : List Char),
      search (enable_regex names) (x :: before) after = none := by
  induction after with
  | nil =>
    intro x before
    simp only [search, match_here_enable_not_start]
    rfl
  | cons y ys ih =>
    intro x before
    simp only [search, match_here_enable_not_start]
    exact ih y (x :: before)



theorem match_here_enable_start (names : Regex) (p : String) :
    (match_here (enable_regex names) { before := [], after := p.data }).isSome
      = begins_with_true p := by
  unfold begins_with_true
  rcases p.data with _ | ⟨a, _ | ⟨b, _ | ⟨c, _ | ⟨d, rest⟩⟩⟩⟩
  · rfl
  · simp only [match_here, enable_regex, Regex.run, List.isEmpty_nil, if_true]
    split <;> rfl
  · simp only [match_here, enable_regex, Regex.run, List.isEmpty_nil, if_true]
    split
    · split <;> rfl
    · rfl
  · simp only [match_here, enable_regex, Regex.run, List.isEmpty_nil, if_true]
    split
    · split
      · split <;> rfl
      · rfl
    · rfl
  · simp only [match_here, enable_regex, Regex.run.eq_10, Regex.run.eq_6, Regex.run.eq_4,
      Regex.run.eq_2, List.isEmpty_nil, if_true]
    cases ha : caseless_eq a 't'
    · rfl
    cases hb : caseless_eq b 'r'
    · rfl
    cases hc : caseless_eq c 'u'
    · rfl
    cases hd : caseless_eq d 'e'
    · rfl
    simp only [if_true, Bool.and_self]
    apply enable_tail_isSome
    simp only [List.length_cons]
    rw [if_pos (by omega)]
    rfl



theorem search_enable_isSome (names : Regex) (p : String) :
    (search (enable_regex names) [] p.data).isSome = begins_with_true p := by
  rw [← match_here_enable_start names p]
  rcases p.data with _ | ⟨x, xs⟩
  · simp only [search]
    cases match_here (enable_regex names) { before := [], after := [] } <;> rfl
  · simp only [search]
    rcases hm : match_here (enable_regex names) { before := [], after := x :: xs } with _ | e
    · simp only [search_enable_not_start]
      rfl
    · rfl

theorem enable_matcher_eq (first : String) (rest : List String) (p : String)
    (hplain : ∀ n ∈ first :: rest, plain_name n = true) :
    g_regex_match_simple (create_regex (first :: rest) regex_accl_utils) p
      = begins_with_true p := by
  unfold g_regex_match_simple
  rw [g_regex_new_enable first rest hplain]
  exact search_enable_isSome _ p

/-- Counterexample to the last part of C28 as stated: these strings begin with `true` and
are resolved to `[ACCL_NONE]` all the same, the requested name being `none` or a supported
name that no accelerator has. -/
theorem none_after_true :
    begins_with_true "true:none" = true
    ∧ parse_accl_hw_all (some "true:none") ["none", "gpu"] = [accl_hw.ACCL_NONE]
    ∧ begins_with_true "true:dsp" = true
    ∧ parse_accl_hw_all (some "true:dsp") ["dsp"] = [accl_hw.ACCL_NONE] := by
  decide

/-- C28 (amended). The enable matcher is a prefix test: for every non-empty supported list
`S` of plain names (no pattern metacharacter other than the dot; names of letters, digits
and dots are plain), the enable pattern built by `create_regex` matches a preference string
`p` if and only if `p` begins with `true` compared caselessly, whatever follows; so
`parse_accl_hw_all (p, S) = [ACCL_NONE]` whenever `p` does not begin with `true` (nothing
is said of the converse). -/
theorem enable_matcher_is_prefix_test (S : List String) (p : String)
    (hne : S ≠ []) (hplain : ∀ n ∈ S, plain_name n = true) :
    (g_regex_match_simple (create_regex S regex_accl_utils) p = true
      ↔ begins_with_true p = true)
    ∧ (begins_with_true p = false → parse_accl_hw_all (some p) S = [accl_hw.ACCL_NONE]) := by
  rcases S with _ | ⟨first, rest⟩
  · exact absurd rfl hne
  · have h := enable_matcher_eq first rest p hplain
    refine ⟨by rw [h], ?_⟩
    intro hb
    rw [hb] at h
    simp [parse_accl_hw_all, h]

/-- Witness of C28 (amended): with the supported list `gpu`, `cpu.neon`, `npu`, a string
with `TRUE` in capitals followed by other text is matched, and a string that names an
accelerator without `true` before it resolves to `[ACCL_NONE]`. -/
theorem enable_matcher_is_prefix_test_witness :
    g_regex_match_simple (create_regex ["gpu", "cpu.neon", "npu"] regex_accl_utils)
        "TRUE, whatever follows" = true
    ∧ parse_accl_hw_all (some "on:gpu") ["gpu", "cpu.neon", "npu"] = [accl_hw.ACCL_NONE] :=
  ⟨(enable_matcher_is_prefix_test ["gpu", "cpu.neon", "npu"] "TRUE, whatever follows"
      (by decide) (by decide)).1.2 (by decide),
   (enable_matcher_is_prefix_test ["gpu", "cpu.neon", "npu"] "on:gpu"
      (by decide) (by decide)).2 (by decide)⟩

/-- C29 (code evaluated at a name that another supported name begins): the request for
`npu.movidius` resolves to `ACCL_NPU` when `npu` is listed first, and to
`ACCL_NPU_MOVIDIUS` when it is listed last. -/
theorem parse_accl_hw_all_prefix_name :
    parse_accl_hw_all (some "true:npu.movidius") ["npu", "npu.movidius"]
      = [accl_hw.ACCL_NPU]
    ∧ parse_accl_hw_all (some "true:npu.movidius") ["npu.movidius", "npu"]
      = [accl_hw.ACCL_NPU_MOVIDIUS]
    ∧ get_accl_hw_type "npu.movidius" = accl_hw.ACCL_NPU_MOVIDIUS := by
  decide

/-- C30 (code evaluated at layout names with surrounding spaces): the stripped copy is
not the string that is compared, so a name with a leading or trailing space is parsed to
`_NNS_LAYOUT_NONE`, and the second element of "NCHW, NHWC" is not parsed to NHWC. -/
theorem parse_layout_string_keeps_spaces :
    gst_tensor_parse_layout_string (some " NHWC") = tensor_layout._NNS_LAYOUT_NONE
    ∧ gst_tensor_parse_layout_string (some "NHWC") = tensor_layout._NNS_LAYOUT_NHWC
    ∧ gst_tensor_parse_layout_string (some "NCHW ") = tensor_layout._NNS_LAYOUT_NONE
    ∧ gst_tensor_parse_layout_string (some "NCHW") = tensor_layout._NNS_LAYOUT_NCHW
    ∧ gst_tensor_parse_layout_string (some " any") = tensor_layout._NNS_LAYOUT_NONE
    ∧ gst_tensor_parse_layout_string (some "any") = tensor_layout._NNS_LAYOUT_ANY
    ∧ ((gst_tensors_parse_layouts_string gst_tensors_layout_init (some "NCHW, NHWC")).1.take 2
        = [tensor_layout._NNS_LAYOUT_NCHW, tensor_layout._NNS_LAYOUT_NONE])
    ∧ (gst_tensors_parse_layouts_string gst_tensors_layout_init (some "NCHW, NHWC")).2 = 2 := by
  decide

end TensorFilter
